import Mathlib

set_option maxHeartbeats 1000000

/-!
Verification development for the loan-application conversation orchestrator
(`src/workflow/state.py`, `src/workflow/graph.py`, `src/agents/master_agent.py`,
`src/agents/verification_agent.py`, `src/tools/otp_tools.py`).

The Python code is shallowly embedded: the shared mutable record becomes an
immutable Lean structure that every operation maps to a new value, regular
expression searches over inbound text are implemented by a small backtracking
matcher with the exact leftmost-match semantics of `re.search`, and every
external collaborator that is not part of the sources (CRM lookups, the sales,
underwriting and sanction agent modules, the Twilio client, the LLM) is an
opaque function bundled in an `Oracles` record, so theorems quantify over all
collaborator behaviours.  Monetary values use `ℚ`; on every input exercised
here the Python `float` arithmetic (integers below 2^53 scaled by powers of
ten) is exact, so the two agree.
-/

namespace FinAgent

/-! ## Character classes (Python `\d`, `\s`, `\w` on the ASCII inputs used) -/

def isDigitCh (c : Char) : Bool := c.isDigit

def isSpaceCh (c : Char) : Bool :=
  c = ' ' ∨ c = '\t' ∨ c = '\n' ∨ c = '\r' ∨ c = '\x0b' ∨ '\x0c' = c

def isWordCh (c : Char) : Bool := c.isAlphanum ∨ c = '_'

def isAlphaCh (c : Char) : Bool := c.isAlpha

/-! ## Plain string helpers mirroring Python `in`, `split`, `find`, `lower`,
`upper`, `strip`, `replace` and slicing.  These are defined over the char
list of the string so that every use is computable by plain structural
reduction; on the ASCII inputs of this code base they agree with the Python
string methods. -/

def charLower (c : Char) : Char :=
  if 'A' ≤ c ∧ c ≤ 'Z' then Char.ofNat (c.toNat + 32) else c

def charUpper (c : Char) : Char :=
  if 'a' ≤ c ∧ c ≤ 'z' then Char.ofNat (c.toNat - 32) else c

def strLower (s : String) : String := String.mk (s.toList.map charLower)

def strUpper (s : String) : String := String.mk (s.toList.map charUpper)

def strTrim (s : String) : String :=
  String.mk (((s.toList.dropWhile isSpaceCh).reverse.dropWhile isSpaceCh).reverse)

def strDrop (s : String) (n : Nat) : String := String.mk (s.toList.drop n)

def strStarts (s p : String) : Bool := p.toList.isPrefixOf s.toList

def strRemoveSpaces (s : String) : String :=
  String.mk (s.toList.filter (fun c => !(c = ' ')))

/-- Python substring containment `needle in hay`, on char lists. -/
def isSubstr (needle : List Char) : List Char → Bool
  | [] => needle.isEmpty
  | c :: rest => needle.isPrefixOf (c :: rest) || isSubstr needle rest

def strContains (hay needle : String) : Bool := isSubstr needle.toList hay.toList

def hasAnyKw (kws : List String) (t : String) : Bool := kws.any (fun k => strContains t k)

/-- Everything after the first occurrence of `pat`, or none (Python `split(pat, 1)[1]`). -/
def afterSub (pat : List Char) : List Char → Option (List Char)
  | [] => if pat.isEmpty then some [] else none
  | c :: rest =>
      if pat.isPrefixOf (c :: rest) then some ((c :: rest).drop pat.length)
      else afterSub pat rest

def afterFirst (hay pat : String) : String :=
  match afterSub pat.toList hay.toList with
  | some l => String.mk l
  | none => ""

/-- Index of the first occurrence of `pat` in `hay` (Python `str.find`). -/
def findIdx (pat : List Char) : List Char → Option Nat
  | [] => if pat.isEmpty then some 0 else none
  | c :: rest =>
      if pat.isPrefixOf (c :: rest) then some 0
      else (findIdx pat rest).map (· + 1)

def natOfDigits (cs : List Char) : Nat :=
  cs.foldl (fun a c => a * 10 + (c.toNat - ('0').toNat)) 0

/-- Value of a captured numeric group `\d+\.?\d*` scaled by the pattern
multiplier: the `float(group) * mult` of the source.  The rational equals the
real value of that expression whenever the Python float arithmetic is exact
(in particular on every integer-valued group); the integer-only fast path
stays inside `Nat` so that concrete runs reduce in the kernel. -/
def parse_scaled (g : String) (mult : Nat) : ℚ :=
  let cs := g.toList
  let ip := cs.takeWhile isDigitCh
  let fp := (cs.drop ip.length).drop 1
  if fp.length = 0 then ((natOfDigits ip * mult : Nat) : ℚ)
  else ((natOfDigits ip : ℚ) + (natOfDigits fp : ℚ) / ((10 : ℚ) ^ fp.length)) * (mult : ℚ)

/-! ## Python truthiness for optional fields -/

def optStrTruthy : Option String → Bool
  | some s => !(s == "")
  | none => false

def qTruthy : Option ℚ → Bool
  | some q => !(q == 0)
  | none => false

def intTruthy : Option Int → Bool
  | some n => !(n == 0)
  | none => false

/-! ## Backtracking regex matcher

A matcher consumes a char list and returns the candidate outcomes in the
priority order a Python NFA engine would try them: each outcome is the list of
captured groups so far plus the remaining input.  `re.search` is then the
first start position (scanning left to right) at which the matcher yields any
outcome, taking the highest-priority one. -/

abbrev Matcher := List Char → List (List String × List Char)

def mEps : Matcher := fun s => [([], s)]

def mSeq (a b : Matcher) : Matcher := fun s =>
  (a s).flatMap (fun g1 => (b g1.2).map (fun g2 => (g1.1 ++ g2.1, g2.2)))

def mAlt (a b : Matcher) : Matcher := fun s => a s ++ b s

def mAlts : List Matcher → Matcher
  | [] => fun _ => []
  | m :: rest => mAlt m (mAlts rest)

def mLit (lit : String) : Matcher := fun s =>
  if lit.toList.isPrefixOf s then [([], s.drop lit.length)] else []

/-- Case-insensitive literal (for patterns compiled with `re.IGNORECASE`). -/
def ciLeads : List Char → List Char → Bool
  | [], _ => true
  | _ :: _, [] => false
  | p :: ps, c :: cs => (charLower p = charLower c) && ciLeads ps cs

def mLitCI (lit : String) : Matcher := fun s =>
  if ciLeads lit.toList s then [([], s.drop lit.length)] else []

def countWhile (p : Char → Bool) : List Char → Nat
  | [] => 0
  | c :: rest => if p c then countWhile p rest + 1 else 0

/-- Greedy repetition of a character class, between `lo` and `hi` characters
(`none` meaning unbounded); outcomes longest first, exactly as a greedy
quantifier backtracks. -/
def mChars (p : Char → Bool) (lo : Nat) (hi : Option Nat) : Matcher := fun s =>
  let maxRun := countWhile p s
  let top := match hi with
    | none => maxRun
    | some h => min h maxRun
  if top < lo then []
  else (List.range (top + 1 - lo)).map (fun i => ([], s.drop (top - i)))

/-- Optional single character (`x?`), greedy. -/
def mOptChar (c : Char) : Matcher := fun s =>
  match s with
  | c2 :: rest => if c2 = c then [([], rest), ([], s)] else [([], s)]
  | [] => [([], s)]

/-- Optional single character from a class (for `[:\-]?`). -/
def mOptCharIn (cls : List Char) : Matcher := fun s =>
  match s with
  | c2 :: rest => if cls.contains c2 then [([], rest), ([], s)] else [([], s)]
  | [] => [([], s)]

/-- Lazy `.*?`: shortest consumption first, never across a newline. -/
def mAnyLazyAux : List Char → List (List String × List Char)
  | [] => [([], [])]
  | c :: rest => ([], c :: rest) :: (if c = '\n' then [] else mAnyLazyAux rest)

def mAnyLazy : Matcher := fun s => mAnyLazyAux s

/-- Word boundary that follows a word character inside the pattern: succeeds
exactly when the remaining input does not start with a word character. -/
def mEndB : Matcher := fun s =>
  match s with
  | [] => [([], [])]
  | c :: _ => if isWordCh c then [] else [([], s)]

/-- Capture: record the text the wrapped matcher consumed as the next group. -/
def mCap (a : Matcher) : Matcher := fun s =>
  (a s).map (fun g => (g.1 ++ [String.mk (s.take (s.length - g.2.length))], g.2))

def tryAt (needB : Bool) (m : Matcher) (prev : Option Char) (s : List Char) :
    Option (List String) :=
  if needB && (match prev with | some c => isWordCh c | none => false) then none
  else
    match m s with
    | g :: _ => some g.1
    | [] => none

/-- `re.search`: scan start positions left to right; `needB` demands a word
boundary at the match start (used when the pattern begins with `\b` followed
by a word character). -/
def searchAux (needB : Bool) (m : Matcher) (prev : Option Char) :
    List Char → Option (List String)
  | [] => tryAt needB m prev []
  | c :: rest =>
      match tryAt needB m prev (c :: rest) with
      | some g => some g
      | none => searchAux needB m (some c) rest

def reSearch (m : Matcher) (t : String) : Option (List String) :=
  searchAux false m none t.toList

def reSearchB (m : Matcher) (t : String) : Option (List String) :=
  searchAux true m none t.toList

def grp1 (r : Option (List String)) : Option String := r.bind (·.head?)

def grp2 (r : Option (List String)) : Option String := r.bind (fun l => l.drop 1 |>.head?)

/-! ## The concrete patterns of the sources -/

/-- Shared numeric group `(\d+\.?\d*)`. -/
def numGroup : Matcher :=
  mCap (mSeq (mChars isDigitCh 1 none) (mSeq (mOptChar '.') (mChars isDigitCh 0 none)))

def spacesM : Matcher := mChars isSpaceCh 0 none

/-- `(\d+\.?\d*)\s*(?:lakh|lakhs|lac|lacs)` — `master_agent.py:197`. -/
def lakhPat : Matcher :=
  mSeq numGroup (mSeq spacesM (mAlts [mLit ("lakh"), mLit ("lakhs"), mLit ("lac"), mLit ("lacs")]))

/-- `(\d+\.?\d*)\s*(?:l|L)` — `master_agent.py:198` (input is lowercased). -/
def bareLPat : Matcher :=
  mSeq numGroup (mSeq spacesM (mAlts [mLit ("l"), mLit ("L")]))

/-- `(\d+\.?\d*)\s*(?:thousand|k|K)` — `master_agent.py:199`. -/
def thousandPat : Matcher :=
  mSeq numGroup (mSeq spacesM (mAlts [mLit ("thousand"), mLit ("k"), mLit ("K")]))

/-- `(\d{4,})` — `master_agent.py:200`. -/
def dig4Pat : Matcher := mCap (mChars isDigitCh 4 none)

/-- The explicitly ordered pattern table of `MasterAgent._determine_next_action`
(greeting stage): first match wins, value multiplied by the associated factor. -/
def master_amount_patterns : List (Matcher × Nat) :=
  [(lakhPat, 100000), (bareLPat, 100000), (thousandPat, 1000), (dig4Pat, 1)]

/-- The `for pattern, mult in patterns` loop of `master_agent.py:202-209`,
applied to the lowercased message. -/
def master_extract_amount (t : String) : Option ℚ :=
  match master_amount_patterns.findSome?
    (fun pm => (grp1 (reSearch pm.1 t)).map (fun g => parse_scaled g pm.2)) with
  | some q => some q
  | none => none

/-- `(\d+)\s*(lakh|lakhs|thousand|k|lac)` — `master_agent.py:225` (needs-assessment). -/
def naAmountPat : Matcher :=
  mSeq (mCap (mChars isDigitCh 1 none))
    (mSeq spacesM
      (mCap (mAlts [mLit ("lakh"), mLit ("lakhs"), mLit ("thousand"), mLit ("k"), mLit ("lac")])))

/-- `option\s*[1-9]` — `master_agent.py:241`. -/
def optionSel19Pat : Matcher :=
  mSeq (mLit ("option")) (mSeq spacesM (mChars (fun c => '1' ≤ c ∧ c ≤ '9') 1 (some 1)))

/-- `option\s*(\d+)` — `graph.py:75`. -/
def optionSelPat : Matcher :=
  mSeq (mLit ("option")) (mSeq spacesM (mCap (mChars isDigitCh 1 none)))

/-- `\b(\d+)\s*(year|years|yr|yrs|month|months)\b` — `master_agent.py:241`, `graph.py:76`. -/
def tenurePat : Matcher :=
  mSeq (mCap (mChars isDigitCh 1 none))
    (mSeq spacesM
      (mSeq (mCap (mAlts [mLit ("year"), mLit ("years"), mLit ("yr"), mLit ("yrs"),
                          mLit ("month"), mLit ("months")]))
        mEndB))

def tenure_search (t : String) : Option (String × String) :=
  match reSearchB tenurePat t with
  | some (a :: b :: _) => some (a, b)
  | _ => none

/-- `\d+\s*%` — `master_agent.py:248`, `graph.py:108`. -/
def percentPat : Matcher := mSeq (mChars isDigitCh 1 none) (mSeq spacesM (mLit ("%")))

/-- `\b(\d{4,6})\b` — the OTP token pattern of `graph.py:256,513`. -/
def digit46Pat : Matcher := mSeq (mCap (mChars isDigitCh 4 (some 6))) mEndB

def digit46_search (t : String) : Option String := grp1 (reSearchB digit46Pat t)

/-- `\bpan\s*[:\-]?\s*([A-Z]{5}[0-9]{4}[A-Z])\b` with IGNORECASE — `graph.py:364`. -/
def panPat : Matcher :=
  mSeq (mLitCI ("pan"))
    (mSeq spacesM
      (mSeq (mOptCharIn [':', '-'])
        (mSeq spacesM
          (mSeq (mCap (mSeq (mChars isAlphaCh 5 (some 5))
                        (mSeq (mChars isDigitCh 4 (some 4)) (mChars isAlphaCh 1 (some 1)))))
            mEndB))))

def pan_search (t : String) : Option String := grp1 (reSearchB panPat t)

/-- `\baadhaar|aadhar\b.*?(\d{4})` with IGNORECASE — `graph.py:365`.  The
alternation binds the whole pattern: either `\baadhaar` (group 1 stays empty)
or `aadhar\b.*?(\d{4})`.  The result distinguishes a match without group
(`some none`) from one with the four digits (`some (some g)`). -/
def aadTail : Matcher := mSeq mEndB (mSeq mAnyLazy (mCap (mChars isDigitCh 4 (some 4))))

def aad_search_from (prev : Option Char) : List Char → Option (Option String)
  | [] => none
  | c :: rest =>
      let boundaryOk := match prev with
        | some p => !(isWordCh p)
        | none => true
      if boundaryOk && ciLeads (("aadhaar").toList) (c :: rest) then some none
      else
        match (mSeq (mLitCI ("aadhar")) aadTail) (c :: rest) with
        | g :: _ => some g.1.head?
        | [] => aad_search_from (some c) rest

def aad_search (t : String) : Option (Option String) := aad_search_from none t.toList

/-- `\bdob\s*[:\-]?\s*([0-9]{4}-[0-9]{2}-[0-9]{2}|[0-9]{2}/[0-9]{2}/[0-9]{4})\b`
with IGNORECASE — `graph.py:366`. -/
def dobPat : Matcher :=
  mSeq (mLitCI ("dob"))
    (mSeq spacesM
      (mSeq (mOptCharIn [':', '-'])
        (mSeq spacesM
          (mSeq (mCap (mAlt
                  (mSeq (mChars isDigitCh 4 (some 4))
                    (mSeq (mLit ("-")) (mSeq (mChars isDigitCh 2 (some 2))
                      (mSeq (mLit ("-")) (mChars isDigitCh 2 (some 2))))))
                  (mSeq (mChars isDigitCh 2 (some 2))
                    (mSeq (mLit ("/")) (mSeq (mChars isDigitCh 2 (some 2))
                      (mSeq (mLit ("/")) (mChars isDigitCh 4 (some 4))))))))
            mEndB))))

def dob_search (t : String) : Option String := grp1 (reSearchB dobPat t)

/-- `\bemail\s*[:\-]?\s*([A-Z0-9._%+-]+@[A-Z0-9.-]+\.[A-Z]{2,})\b` with
IGNORECASE — `graph.py:367`. -/
def emailLocalCh (c : Char) : Bool :=
  c.isAlphanum ∨ c = '.' ∨ c = '_' ∨ c = '%' ∨ c = '+' ∨ '-' = c

def emailDomCh (c : Char) : Bool := c.isAlphanum ∨ c = '.' ∨ '-' = c

def emailPat : Matcher :=
  mSeq (mLitCI ("email"))
    (mSeq spacesM
      (mSeq (mOptCharIn [':', '-'])
        (mSeq spacesM
          (mSeq (mCap (mSeq (mChars emailLocalCh 1 none)
                  (mSeq (mLit ("@"))
                    (mSeq (mChars emailDomCh 1 none)
                      (mSeq (mLit (".")) (mChars isAlphaCh 2 none))))))
            mEndB))))

def email_search (t : String) : Option String := grp1 (reSearchB emailPat t)

/-- `\b(alt|alternate)\s*phone\s*[:\-]?\s*(\+?\d{10,13})\b` with IGNORECASE —
`graph.py:368`; the code keeps group 2 (the number). -/
def altPhonePat : Matcher :=
  mSeq (mCap (mAlt (mLitCI ("alt")) (mLitCI ("alternate"))))
    (mSeq spacesM
      (mSeq (mLitCI ("phone"))
        (mSeq spacesM
          (mSeq (mOptCharIn [':', '-'])
            (mSeq spacesM
              (mSeq (mCap (mSeq (mOptChar '+') (mChars isDigitCh 10 (some 13))))
                mEndB))))))

def alt_phone_search (t : String) : Option String := grp2 (reSearchB altPhonePat t)

/-! ## Keyword tables of the sources -/

/-- `master_agent.py:256`. -/
def master_otp_kws : List String := [("send otp"), ("otp"), ("resend otp"), ("send the otp")]

/-- `graph.py:209` and `graph.py:512`. -/
def graph_otp_kws : List String :=
  [("send otp"), ("resend otp"), ("send the otp"), ("otp please"), ("otp")]

/-- `master_agent.py:232-235`. -/
def accept_terms : List String :=
  [("proceed"), ("go ahead"), ("accept"), ("let\x27s go"), ("lets go"),
   ("confirm"), ("finalize"), ("book"), ("i agree"), ("looks good")]

/-- `master_agent.py:245-247` and `graph.py:106`. -/
def negotiation_cues : List String :=
  [("rate"), ("reduce"), ("discount"), ("lower"), ("cheaper"),
   ("negotiate"), ("negotiation"), ("emi")]

/-- `master_agent.py:215`. -/
def loan_intent_kws : List String := [("loan"), ("money"), ("borrow"), ("need"), ("want")]

/-- `graph.py:352`. -/
def street_tokens : List String :=
  [("street"), ("road"), ("lane"), ("block"), ("sector"), ("city"), ("pincode"), ("pin")]

/-! ## Data model (`src/workflow/state.py`) -/

inductive Role
  | user
  | assistant
  | system
deriving DecidableEq, Repr

/-- `ConversationMessage` of `state.py:102-107`. -/
structure Message where
  role : Role
  content : String
  timestamp : String
  agent : Option String
deriving DecidableEq, Repr

/-- The `current_stage` literal of `state.py:23-32`. -/
inductive Stage
  | greeting
  | needs_assessment
  | sales_negotiation
  | verification
  | underwriting
  | document_upload
  | sanction_generation
  | closure
deriving DecidableEq, Repr

/-- The `underwriting_decision` literal of `state.py:81`. -/
inductive UDecision
  | approved
  | rejected
  | needs_documents
  | pending
deriving DecidableEq, Repr

/-- The `application_status` literal of `state.py:89`. -/
inductive AppStatus
  | in_progress
  | approved
  | rejected
  | abandoned
deriving DecidableEq, Repr

/-- A loan offer as consumed by `graph.py` (`tenure_display`, `amount`,
`interest_rate`, `monthly_emi`, `tenure_months` are the keys the workflow
reads).  The offers themselves come from the sales collaborator. -/
structure Offer where
  amount : ℚ
  tenure_months : Int
  interest_rate : ℚ
  monthly_emi : ℚ
  tenure_display : String
deriving DecidableEq, Repr

/-- Modelled from the spec: the customer record returned by the
identity/contact lookup collaborator (`lookup_customer`); `crm_tools.py` is
not part of the sources.  `verification_agent.py` reads `name`, `phone`,
`city` and `kyc_status` (the latter defaulting to `unknown`). -/
structure Customer where
  name : String
  phone : String
  city : String
  kyc_status : Option String
deriving DecidableEq, Repr

/-- `LoanApplicationState` of `state.py:8-99`.  Python `Optional`/falsy
defaults become `Option`; floats become `ℚ`; the free-form `next_action` and
`active_agent` strings stay strings as in the source. -/
structure State where
  customer_id : Option String
  customer_name : Option String
  customer_phone : Option String
  customer_email : Option String
  customer_address : Option String
  conversation_history : List Message
  current_stage : Stage
  active_agent : String
  next_action : Option String
  requested_amount : Option ℚ
  approved_amount : Option ℚ
  tenure_months : Option Int
  interest_rate : Option ℚ
  monthly_emi : Option ℚ
  loan_purpose : Option String
  customer_needs : Option String
  objections_raised : List String
  negotiation_history : List String
  recommended_offers : List Offer
  selected_offer : Option Offer
  kyc_verified : Bool
  kyc_pan : Option String
  kyc_aadhaar_last4 : Option String
  kyc_dob : Option String
  kyc_email : Option String
  alt_phone : Option String
  phone_verified : Bool
  address_verified : Bool
  otp_sent : Bool
  otp_attempts : Nat
  otp_provider : Option String
  verification_notes : Option String
  id_document_front_url : Option String
  id_document_back_url : Option String
  otp_code : Option String
  otp_phone : Option String
  otp_resend_count : Nat
  credit_score : Option Int
  pre_approved_limit : Option ℚ
  salary_slip_uploaded : Bool
  salary_slip_url : Option String
  monthly_salary : Option ℚ
  debt_to_income_share : Option ℚ
  existing_emi_total : Option ℚ
  total_monthly_obligation : Option ℚ
  emi_to_income_share : Option ℚ
  risk_score : Option ℚ
  underwriting_decision : Option UDecision
  rejection_reason : Option String
  conditional_requirements : List String
  underwriting_recommendations : List String
  sanction_letter_url : Option String
  sanction_letter_ref_no : Option String
  application_status : AppStatus
  session_id : String
  created_at : String
  updated_at : String
  total_interactions : Nat
  error_count : Nat
  last_error : Option String
deriving Repr

/-! The two ratio fields of `state.py` (`debt_to_income_ratio`,
`emi_to_income_ratio`) are carried here under the suffix `share` with
identical meaning. -/

/-- `create_initial_state` of `state.py:132-223`; the fresh uuid and the two
`datetime.now()` reads are inputs. -/
def create_initial_state (sid now : String) (cid : Option String) : State where
  customer_id := cid
  customer_name := none
  customer_phone := none
  customer_email := none
  customer_address := none
  conversation_history := []
  current_stage := Stage.greeting
  active_agent := "master"
  next_action := none
  requested_amount := none
  approved_amount := none
  tenure_months := none
  interest_rate := none
  monthly_emi := none
  loan_purpose := none
  customer_needs := none
  objections_raised := []
  negotiation_history := []
  recommended_offers := []
  selected_offer := none
  kyc_verified := false
  kyc_pan := none
  kyc_aadhaar_last4 := none
  kyc_dob := none
  kyc_email := none
  alt_phone := none
  phone_verified := false
  address_verified := false
  otp_sent := false
  otp_attempts := 0
  otp_provider := none
  verification_notes := none
  id_document_front_url := none
  id_document_back_url := none
  otp_code := none
  otp_phone := none
  otp_resend_count := 0
  credit_score := none
  pre_approved_limit := none
  salary_slip_uploaded := false
  salary_slip_url := none
  monthly_salary := none
  debt_to_income_share := none
  existing_emi_total := none
  total_monthly_obligation := none
  emi_to_income_share := none
  risk_score := none
  underwriting_decision := some UDecision.pending
  rejection_reason := none
  conditional_requirements := []
  underwriting_recommendations := []
  sanction_letter_url := none
  sanction_letter_ref_no := none
  application_status := AppStatus.in_progress
  session_id := sid
  created_at := now
  updated_at := now
  total_interactions := 0
  error_count := 0
  last_error := none

/-- `update_state` of `state.py:226-248`: merge the updates (done at each call
site with a record update) and refresh `updated_at`. -/
def update_state (now : String) (s : State) : State := { s with updated_at := now }

/-- `add_message` of `state.py:251-284`: append one message and bump
`total_interactions`. -/
def add_message (now : String) (s : State) (role : Role) (content : String)
    (agent : Option String := none) : State :=
  update_state now
    { s with
      conversation_history := s.conversation_history ++ [⟨role, content, now, agent⟩],
      total_interactions := s.total_interactions + 1 }

/-! ## Collaborator result shapes -/

/-- Modelled from the spec: result of the sales collaborator
(`sales_agent.process_sales`, module not part of the sources): on success a
non-empty offers list with a recommended offer and a presentation text, on
failure an error (`generate`-style degradation). -/
inductive SalesRes
  | ok (offers : List Offer) (recommended : Offer) (presentation : String)
  | err (error : Option String)

/-- Modelled from the spec: result of the sales negotiation step
(`sales_agent.handle_negotiation`). -/
structure NegotiationRes where
  response : String
  negotiation_approved : Bool
  new_rate : Option ℚ
  new_emi : Option ℚ

/-- Modelled from the spec: result of the address check collaborator
(`crm_tools.verify_customer_details`): verified flag plus mismatch list. -/
structure Mismatch where
  field_name : String
  provided_value : String
  crm_value : String

structure AddrCheck where
  verified : Bool
  mismatches : List Mismatch

/-- Modelled from the spec: send result of the external code-delivery
provider (`otp_tools.send_otp_via_twilio`, network call): on success the
provider message, on failure the error text; the code itself is never
returned. -/
structure TwilioSendRes where
  success : Bool
  message : String
  error : String

/-- Modelled from the spec: check result of the external code-delivery
provider (`otp_tools.verify_otp_via_twilio`). -/
structure TwilioVerifyRes where
  success : Bool
  verified : Bool
  message : Option String

/-- Modelled from the spec: the assessment collaborator
(`underwriting_agent.process_underwriting`, module not part of the sources),
as consumed by `graph.py:399-447`.  The eligibility-details keys are optional;
an absent key leaves the corresponding record field unchanged. -/
structure UwOk where
  message : String
  credit_score : Option Int
  risk_score : Option ℚ
  decision : UDecision
  approved_amount : Option ℚ
  conditions : List String
  elig_reason : Option String
  elig_monthly_emi : Option ℚ
  elig_total_monthly_obligation : Option ℚ
  elig_emi_to_income : Option ℚ
  recommendations : List String

inductive UwRes
  | ok (r : UwOk)
  | err (error : Option String)

/-- Modelled from the spec: the document-generation collaborator
(`sanction_agent.generate_sanction`, module not part of the sources). -/
inductive SanRes
  | ok (message : String) (sanction_letter_url : String) (reference_number : String)
  | err (error : Option String)

/-- The collaborator bundle.  Every external effect of a cycle is read from
here, so theorems quantifying over `Oracles` hold for all collaborator
behaviours; `now` stands for the `datetime.now()` reads of `state.py`. -/
structure Oracles where
  now : String
  /-- The response-generation collaborator used by `MasterAgent.process_message`;
  it sees the whole record and the inbound text (the concrete prompt string
  assembled by `_build_prompt` is a function of exactly these, and no theorem
  here inspects it). -/
  masterLLM : State → String → String
  /-- `otp_tools.is_twilio_configured` (environment variables). -/
  twilioConfigured : Bool
  /-- Modelled from the spec: `crm_tools.get_customer_by_id`. -/
  getCustomerById : String → Option Customer
  /-- Modelled from the spec: `crm_tools.simulate_otp_generation` as used by
  `VerificationAgent.send_otp`. -/
  simulateOtp : Option String → String
  /-- Modelled from the spec: `crm_tools.verify_customer_details`. -/
  verifyCustomerDetails : String → String → AddrCheck
  twilioSendOtp : Option String → TwilioSendRes
  twilioVerifyOtp : String → String → TwilioVerifyRes
  processSales : State → ℚ → Option String → SalesRes
  handleNegotiation : State → String → Offer → NegotiationRes
  processUnderwriting : State → UwRes
  generateSanction : State → SanRes

/-- `otp_tools.send_otp`: route to the provider only when configured. -/
def otp_send_api (o : Oracles) (phone : Option String) : TwilioSendRes :=
  if o.twilioConfigured then o.twilioSendOtp phone
  else { success := false, message := "", error := "Twilio not configured" }

/-- `otp_tools.verify_otp`: route to the provider only when configured. -/
def otp_verify_api (o : Oracles) (phone code : String) : TwilioVerifyRes :=
  if o.twilioConfigured then o.twilioVerifyOtp phone code
  else { success := false, verified := false, message := none }

/-! ## Master agent (`src/agents/master_agent.py`) -/

/-- `MasterAgent.generate_greeting` (`master_agent.py:293-312`). -/
def greeting_named (nm : String) : String :=
  "Hello " ++ nm ++ "! 👋\n\nWelcome to FinTech NBFC - your trusted partner for personal loans.\n\nI\x27m here to help you with quick and easy loan approval. Whether you need funds for a wedding, education, medical emergency, or any personal need, I can assist you.\n\nHow can I help you today?"

def greeting_anonymous : String :=
  "Hello! 👋 Welcome to FinTech NBFC!\n\nI\x27m your personal loan assistant. I\x27m here to help you get the funds you need with:\n✓ Quick approval process\n✓ Competitive interest rates  \n✓ Flexible repayment options\n✓ Minimal documentation\n\nMay I know your name to get started?"

def generate_greeting (customer_name : Option String) : String :=
  match customer_name with
  | some nm => if nm = "" then greeting_anonymous else greeting_named nm
  | none => greeting_anonymous

/-- `MasterAgent._determine_next_action` (`master_agent.py:172-291`).  The
returned triple is (next action, new stage, record), the record because the
greeting branch writes a parsed amount straight back onto it. -/
def determine_next_action (current_stage : Stage) (user_message : String) (s : State) :
    Option String × Stage × State :=
  let uml := strLower user_message
  match current_stage with
  | Stage.greeting =>
      if qTruthy s.requested_amount then
        (some ("delegate_to_sales"), Stage.sales_negotiation, s)
      else
        let amt := master_extract_amount uml
        if qTruthy amt then
          (some ("delegate_to_sales"), Stage.sales_negotiation, { s with requested_amount := amt })
        else if hasAnyKw loan_intent_kws uml then (none, Stage.needs_assessment, s)
        else (none, Stage.greeting, s)
  | Stage.needs_assessment =>
      if qTruthy s.requested_amount then
        (some ("delegate_to_sales"), Stage.sales_negotiation, s)
      else if (reSearch naAmountPat uml).isSome then
        (some ("delegate_to_sales"), Stage.sales_negotiation, s)
      else (none, Stage.needs_assessment, s)
  | Stage.sales_negotiation =>
      if hasAnyKw accept_terms uml then
        (some ("delegate_to_verification"), Stage.verification, s)
      else if (reSearch optionSel19Pat uml).isSome || (reSearchB tenurePat uml).isSome then
        (some ("delegate_to_sales"), Stage.sales_negotiation, s)
      else if hasAnyKw negotiation_cues uml || (reSearch percentPat uml).isSome then
        (some ("delegate_to_sales"), Stage.sales_negotiation, s)
      else (none, Stage.sales_negotiation, s)
  | Stage.verification =>
      if hasAnyKw master_otp_kws uml then
        (some ("delegate_to_verification"), Stage.verification, s)
      else if s.otp_sent && (reSearchB digit46Pat uml).isSome then
        (some ("delegate_to_verification"), Stage.verification, s)
      else if s.kyc_verified && s.phone_verified then
        (some ("delegate_to_underwriting"), Stage.underwriting, s)
      else (none, Stage.verification, s)
  | Stage.underwriting =>
      match s.underwriting_decision with
      | some UDecision.needs_documents => (none, Stage.document_upload, s)
      | some UDecision.approved => (some ("delegate_to_sanction"), Stage.sanction_generation, s)
      | some UDecision.rejected => (none, Stage.closure, s)
      | _ => (none, Stage.underwriting, s)
  | Stage.document_upload =>
      if s.salary_slip_uploaded then (some ("delegate_to_underwriting"), Stage.underwriting, s)
      else (none, Stage.document_upload, s)
  | Stage.sanction_generation =>
      if optStrTruthy s.sanction_letter_url then (none, Stage.closure, s)
      else (none, Stage.sanction_generation, s)
  | Stage.closure => (none, Stage.closure, s)

/-- `MasterAgent.process_message` (`master_agent.py:50-101`): the LLM
response plus the routing decision (and the possibly amount-annotated record). -/
def master_process_message (o : Oracles) (s : State) (user_message : String) :
    (String × Option String × Stage) × State :=
  let response := o.masterLLM s user_message
  let d := determine_next_action s.current_stage user_message s
  ((response, d.1, d.2.1), d.2.2)

/-- `master_agent_node` (`graph.py:24-54`). -/
def master_agent_node (o : Oracles) (s : State) : State :=
  match s.conversation_history.getLast? with
  | none => add_message o.now s Role.assistant (generate_greeting s.customer_name) (some ("master"))
  | some last =>
      if last.role = Role.user then
        let r := master_process_message o s last.content
        let s2 := add_message o.now r.2 Role.assistant r.1.1 (some ("master"))
        update_state o.now
          { s2 with current_stage := r.1.2.2, next_action := r.1.2.1, active_agent := "master" }
      else s

/-! ## Sales node (`graph.py:57-166`) -/

/-- The backwards scan for the latest user entry shared by the worker nodes. -/
def last_user_content (s : State) : Option String :=
  (s.conversation_history.reverse.find? (fun m => m.role == Role.user)).map (·.content)

/-- Numeric rendering helper for message text; the thousands separators and
fixed decimals of the Python format specifiers are presentation-only and
abstracted to the canonical `ℚ` rendering (no theorem inspects these texts). -/
def fmtQ (q : ℚ) : String := toString q

def sales_confirm_msg (sel : Offer) : String :=
  "Great choice! I\x27ve noted your selection: " ++ sel.tenure_display ++
  "\n- Loan Amount: ₹" ++ fmtQ sel.amount ++
  "\n- Interest Rate: " ++ fmtQ (sel.interest_rate * 100) ++ "% p.a." ++
  "\n- Monthly EMI: ₹" ++ fmtQ sel.monthly_emi ++
  "\n\nIf you\x27re ready, type \x27proceed\x27 to move to verification, or say \x27negotiate\x27 to discuss the rate/EMI."

def sales_amount_prompt : String :=
  "Could you please confirm the loan amount you need (e.g., 3 lakh, 500000, 50k)?"

/-- Offer selection by explicit option index or tenure phrase
(`graph.py:73-103`). -/
def select_offer (l : String) (offers : List Offer) : Option Offer :=
  let optM := grp1 (reSearch optionSelPat l)
  let tenM := tenure_search l
  match optM with
  | some g =>
      if offers.length = 0 then none
      else
        let n : Int := (natOfDigits g.toList : Int)
        let idx : Int := max 0 (min (n - 1) ((offers.length : Int) - 1))
        offers[idx.toNat]?
  | none =>
      match tenM with
      | some (g, unit) =>
          if offers.length = 0 then none
          else
            let n : Int := (natOfDigits g.toList : Int)
            let months : Int := if strStarts unit ("y") then n * 12 else n
            match offers with
            | [] => none
            | x :: xs =>
                some (xs.foldl
                  (fun best oNext =>
                    if (oNext.tenure_months - months).natAbs < (best.tenure_months - months).natAbs
                    then oNext else best) x)
      | none => none

/-- The confirmed-selection branch (`graph.py:87-103`). -/
def sales_selection_step (o : Oracles) (s : State) (sel : Offer) : State :=
  let s1 := add_message o.now s Role.assistant (sales_confirm_msg sel) (some ("sales"))
  update_state o.now
    { s1 with
      selected_offer := some sel,
      tenure_months := some sel.tenure_months,
      interest_rate := some sel.interest_rate,
      monthly_emi := some sel.monthly_emi,
      active_agent := "master",
      next_action := none }

/-- The current-offer choice of the negotiation branch (`graph.py:109-125`):
match by tenure, else the middle/first offer, else the head of freshly
regenerated offers. -/
def current_offer_choice (o : Oracles) (s : State) : Option Offer :=
  let offers := s.recommended_offers
  let c1 : Option Offer :=
    if intTruthy s.tenure_months then
      offers.find? (fun ofr => s.tenure_months == some ofr.tenure_months)
    else none
  let c2 : Option Offer :=
    match c1 with
    | some c => some c
    | none => if offers.length ≠ 0 then offers[min 1 (offers.length - 1)]? else none
  match c2 with
  | some c => some c
  | none =>
      let amtArg : ℚ :=
        if qTruthy s.requested_amount then s.requested_amount.getD 0 else 100000
      match o.processSales s amtArg s.customer_needs with
      | SalesRes.ok offers2 _ _ => offers2.head?
      | SalesRes.err _ => none

/-- The negotiation branch body (`graph.py:126-136`). -/
def sales_negotiation_step (o : Oracles) (s : State) (l : String) (cur : Offer) : State :=
  let nres := o.handleNegotiation s l cur
  let s1 := add_message o.now s Role.assistant nres.response (some ("sales"))
  update_state o.now
    (if nres.negotiation_approved then
      { s1 with
        active_agent := "master", next_action := none,
        interest_rate := some (nres.new_rate.getD cur.interest_rate),
        monthly_emi := some (nres.new_emi.getD cur.monthly_emi) }
     else { s1 with active_agent := "master", next_action := none })

/-- The offer-presentation tail (`graph.py:138-166`). -/
def sales_present (o : Oracles) (s : State) : State :=
  if ¬qTruthy s.requested_amount then
    let s1 := add_message o.now s Role.assistant sales_amount_prompt (some ("sales"))
    update_state o.now { s1 with active_agent := "master", next_action := none }
  else
    match o.processSales s (s.requested_amount.getD 0) s.customer_needs with
    | SalesRes.ok offers rec pres =>
        let s1 := add_message o.now s Role.assistant pres (some ("sales"))
        update_state o.now
          { s1 with
            recommended_offers := offers,
            tenure_months := some rec.tenure_months,
            interest_rate := some rec.interest_rate,
            monthly_emi := some rec.monthly_emi,
            active_agent := "master",
            next_action := none }
    | SalesRes.err e =>
        update_state o.now
          { s with active_agent := "master", next_action := none, last_error := e }

def sales_agent_node (o : Oracles) (s : State) : State :=
  let lum := (last_user_content s).map strLower
  let selected : Option Offer :=
    match lum with
    | some l => if l = "" then none else select_offer l s.recommended_offers
    | none => none
  match selected with
  | some sel => sales_selection_step o s sel
  | none =>
      let negotiating :=
        match lum with
        | some l =>
            l ≠ "" && !(s.recommended_offers.isEmpty) &&
              (hasAnyKw negotiation_cues l || (reSearch percentPat l).isSome)
        | none => false
      if negotiating then
        match current_offer_choice o s with
        | some cur => sales_negotiation_step o s (lum.getD "") cur
        | none => sales_present o s
      else sales_present o s

/-! ## Verification agent (`src/agents/verification_agent.py`) and node
(`graph.py:169-396`).  The node body is a sequence of independent sub-checks
over the same inbound message; it is split here into one definition per
check, composed exactly as the Python control flow does. -/

def verif_explainer (c : Customer) : String :=
  "Thank you! Let\x27s quickly verify your details for security. This will only take a minute.\n\n📋 **Verification Steps**\n1) Identity: Share PAN, DOB, and Email\n2) Phone: We\x27ll send an OTP to " ++ c.phone ++
  "\n3) Address: Confirm your current address\n\nI have your records on file:\n- Name: " ++ c.name ++
  "\n- Phone: " ++ c.phone ++ "\n- City: " ++ c.city ++
  "\n\n**KYC Status**: " ++ strUpper (c.kyc_status.getD ("unknown")) ++
  "\n\nYou can reply here (e.g., \"PAN: ABCDE1234F | DOB: 1990-05-10 | Email: name@example.com\")\nand type \"SEND OTP\" to receive the code.\n\nAlternatively, use the verification panel below to submit details.\n"

/-- `VerificationAgent.start_verification` (`verification_agent.py:51-108`). -/
inductive StartRes
  | ok (message : String) (customer : Customer)
  | err (error : String)

def verif_start_result (o : Oracles) (s : State) : StartRes :=
  match s.customer_id with
  | none => StartRes.err ("Customer ID not available")
  | some cid =>
      if cid = "" then StartRes.err ("Customer ID not available")
      else
        match o.getCustomerById cid with
        | none => StartRes.err ("Customer not found")
        | some c => StartRes.ok (verif_explainer c) c

/-- First entry into verification (`graph.py:187-206`). -/
def verif_start (o : Oracles) (s : State) : State :=
  match verif_start_result o s with
  | StartRes.ok msg _ =>
      let s1 := add_message o.now s Role.assistant msg (some ("verification"))
      update_state o.now { s1 with active_agent := "master", next_action := none }
  | StartRes.err e =>
      update_state o.now { s with active_agent := "master", last_error := some e }

/-- `graph.py:187`: no identity field captured, no verified flag, no code sent. -/
def verif_uninitialized (s : State) : Bool :=
  !(optStrTruthy s.kyc_pan || optStrTruthy s.kyc_dob || optStrTruthy s.kyc_email ||
    s.phone_verified || s.address_verified) && !s.otp_sent

/-- Phone source for code delivery (`graph.py:213-214`): explicit override on
the record, else the CRM phone, else the known contact phone. -/
def otp_phone_source (o : Oracles) (s : State) : Option String :=
  if optStrTruthy s.otp_phone then s.otp_phone
  else
    match verif_start_result o s with
    | StartRes.ok _ c => some c.phone
    | StartRes.err _ => s.customer_phone

/-- Lightweight E.164 normalisation (`graph.py:217-222`): a bare 10-digit
number is assumed Indian. -/
def normalize_phone : Option String → Option String
  | some p =>
      if p = "" then some p
      else
        let raw := strRemoveSpaces (strTrim p)
        some (if raw.toList.all isDigitCh && raw.length = 10 then "+91" ++ raw else raw)
  | none => none

def render_phone : Option String → String
  | some p => p
  | none => "None"

/-- Message of `VerificationAgent.send_otp` (`verification_agent.py:135-145`);
the demo flow shows the code in the chat. -/
def demo_otp_msg (phone : Option String) (otp : String) : String :=
  "✅ **OTP Sent Successfully!**\n\nA 6-digit OTP has been sent to " ++ render_phone phone ++
  ".\n\n📱 Please check your messages and enter the OTP here to verify your phone number.\n\n⏱️ OTP is valid for 10 minutes.\n❓ Didn\x27t receive it? You can request a new OTP in 60 seconds.\n\n**For Demo**: Your OTP is **" ++ otp ++ "**\n"

/-- Code-request handling (`graph.py:209-252`), entered when the inbound text
asks for a code and a customer id is known. -/
def verif_send_otp (o : Oracles) (s : State) : State :=
  let phone := normalize_phone (otp_phone_source o s)
  if o.twilioConfigured then
    let res := otp_send_api o phone
    let msg := if res.success then res.message
               else "⚠️ Failed to send OTP: " ++ res.error
    let s1 := add_message o.now s Role.assistant msg (some ("verification"))
    update_state o.now
      { s1 with
        otp_sent := res.success,
        otp_provider := if res.success then some ("twilio") else none,
        otp_code := none,
        otp_phone := phone,
        otp_attempts := 0,
        otp_resend_count := if s.otp_sent then s.otp_resend_count + 1 else s.otp_resend_count,
        active_agent := "master",
        next_action := none }
  else
    let otp := o.simulateOtp phone
    let s1 := add_message o.now s Role.assistant (demo_otp_msg phone otp) (some ("verification"))
    update_state o.now
      { s1 with
        otp_sent := true,
        otp_provider := some ("demo"),
        otp_code := some otp,
        otp_phone := phone,
        otp_attempts := 0,
        otp_resend_count := if s.otp_sent then s.otp_resend_count + 1 else s.otp_resend_count,
        active_agent := "master",
        next_action := none }

def twilio_phone_verified_msg : String := "✅ Phone Verification Successful!"

def twilio_max_attempts_msg : String :=
  "❌ Maximum attempts exceeded. Type \x27SEND OTP\x27 to request a new code."

def twilio_wrong_default_msg (remaining : Nat) : String :=
  "❌ Incorrect OTP. Attempts remaining: " ++ toString remaining

def demo_phone_verified_msg : String :=
  "✅ **Phone Verification Successful!**\n\nYour mobile number has been verified successfully.\n\nNext, let me confirm your address details for our records."

def demo_max_attempts_msg : String :=
  "❌ **Maximum Attempts Exceeded**\n\nYou\x27ve entered incorrect OTP 3 times. For security reasons, please request a new OTP.\n\nType \"SEND OTP\" to get a new code."

def demo_wrong_try_msg (remaining : Nat) : String :=
  "❌ **Incorrect OTP**\n\nThe OTP you entered doesn\x27t match. Please try again.\n\nAttempts remaining: " ++ toString remaining ++
  "\n\n💡 Make sure you\x27re entering the latest OTP received."

def no_otp_msg : String := "No OTP found. Please type \x27SEND OTP\x27 to request a new code."

/-- Code verification sub-check (`graph.py:254-338`): fires when the inbound
text carries a 4-6 digit token; control always continues to the next
sub-check afterwards. -/
def verif_code_phase (o : Oracles) (s : State) (lum : Option String) : State :=
  match lum with
  | none => s
  | some m =>
      if m ≠ "" ∧ (digit46_search m).isSome then
        let entered := digit46_search m
        if s.otp_sent && s.otp_provider == some ("twilio") &&
            optStrTruthy s.otp_phone && optStrTruthy entered then
          let vres := otp_verify_api o (s.otp_phone.getD "") (entered.getD "")
          if vres.success && vres.verified then
            let s1 := add_message o.now s Role.assistant twilio_phone_verified_msg
              (some ("verification"))
            update_state o.now
              { s1 with phone_verified := true, otp_sent := false, otp_code := none,
                        otp_attempts := 0, active_agent := "master", next_action := none }
          else
            let attempts := s.otp_attempts + 1
            let errMsg :=
              match vres.message with
              | some t => if t = "" then twilio_wrong_default_msg (3 - attempts) else t
              | none => twilio_wrong_default_msg (3 - attempts)
            if attempts ≥ 3 then
              let s1 := add_message o.now s Role.assistant twilio_max_attempts_msg
                (some ("verification"))
              update_state o.now
                { s1 with otp_sent := false, otp_attempts := 0,
                          active_agent := "master", next_action := none }
            else
              let s1 := add_message o.now s Role.assistant errMsg (some ("verification"))
              update_state o.now
                { s1 with otp_attempts := attempts,
                          active_agent := "master", next_action := none }
        else if s.otp_sent && optStrTruthy s.otp_code then
          if entered == s.otp_code then
            let s1 := add_message o.now s Role.assistant demo_phone_verified_msg
              (some ("verification"))
            update_state o.now
              { s1 with phone_verified := true, otp_sent := false, otp_code := none,
                        otp_attempts := 0, active_agent := "master", next_action := none }
          else
            let attempts := s.otp_attempts + 1
            if attempts ≥ 3 then
              let s1 := add_message o.now s Role.assistant demo_max_attempts_msg
                (some ("verification"))
              update_state o.now
                { s1 with otp_sent := false, otp_code := none, otp_attempts := 0,
                          active_agent := "master", next_action := none }
            else
              let s1 := add_message o.now s Role.assistant (demo_wrong_try_msg (3 - attempts))
                (some ("verification"))
              update_state o.now
                { s1 with otp_attempts := attempts,
                          active_agent := "master", next_action := none }
        else
          let s1 := add_message o.now s Role.assistant no_otp_msg (some ("verification"))
          update_state o.now { s1 with active_agent := "master", next_action := none }
      else s

/-- Result of Python `s.split(pat, 1)[1]`: the text after the first
occurrence of `pat`, or `none` for the `IndexError` raised when `pat` does
not occur (`split` then returns a one-element list). -/
def splitAfter (m pat : String) : Option String :=
  (afterSub pat.toList m.toList).map (fun r => String.mk r)

/-- Address detection (`graph.py:341-353`): explicit prefixes first, then the
street-token fallback for long enough messages.  The branches at
`graph.py:345` and `graph.py:347` index `[1]` into a `split` on the original
(case-preserved) message, so when the lowercased message starts with
`my address is` but the original holds no lowercase occurrence of `is`
(e.g. `my address iS ...`) the program raises `IndexError`; the outer `none`
models that raised exception. -/
def addr_text_of (m : String) : Option (Option String) :=
  let lower := strLower m
  let a1 : Option (Option String) :=
    if strStarts lower ("address:") then
      (splitAfter m (":")).map (fun r => some (strTrim r))
    else if strStarts lower ("my address is") then
      (splitAfter m ("is")).map (fun r => some (strTrim r))
    else if strContains lower ("address is") then
      match findIdx (("address is").toList) lower.toList with
      | some idx => some (some (strTrim (strDrop m (idx + 10))))
      | none => some none
    else some none
  a1.map (fun a =>
    if ¬optStrTruthy a ∧ hasAnyKw street_tokens lower ∧ m.length > 10 then
      some (strTrim m)
    else a)

def addr_verified_msg : String :=
  "✅ **Address Verified Successfully!**\n\nYour address matches our records. All verification steps are complete!\n\n🎉 **Verification Summary**:\n├─ Identity: ✓ Verified\n├─ Phone: ✓ Verified  \n└─ Address: ✓ Verified\n\nGreat! Now let\x27s proceed with your loan application review. This will just take a moment..."

def addr_mismatch_msg (mm : Mismatch) : String :=
  "⚠️ **Address Mismatch Detected**\n\nThe address you provided doesn\x27t match our records:\n\n**Your Input**: " ++ mm.provided_value ++
  "\n**Our Records**: " ++ mm.crm_value ++
  "\n\nThis might be due to:\n- Recent address change\n- Typing error\n- Different format\n\nPlease confirm:\n1. Is this your current address? If yes, we\x27ll update our records.\n2. Or would you like to use the address we have on file?\n\nYour security is important, so we need to clarify this."

def addr_confirmed_msg : String :=
  "✅ **Address Verified!**\n\nThank you for confirming. All verifications are complete!"

structure AddrVerifyOut where
  message : String
  address_verified : Bool

/-- `VerificationAgent.verify_address` (`verification_agent.py:229-306`). -/
def verify_address_result (o : Oracles) (cid addr : String) : AddrVerifyOut :=
  let r := o.verifyCustomerDetails cid addr
  if r.verified then ⟨addr_verified_msg, true⟩
  else
    match r.mismatches with
    | mm :: _ => ⟨addr_mismatch_msg mm, false⟩
    | [] => ⟨addr_confirmed_msg, true⟩

/-- Address sub-check (`graph.py:341-360`); `none` propagates the
`IndexError` of the address-text extraction (`graph.py:347`). -/
def verif_addr_phase (o : Oracles) (s : State) (lum : Option String) : Option State :=
  match lum with
  | none => some s
  | some m =>
      if m = "" then some s
      else
        match addr_text_of m with
        | none => none
        | some atext =>
            if optStrTruthy atext ∧ optStrTruthy s.customer_id then
              let out := verify_address_result o (s.customer_id.getD "") (atext.getD "")
              let s1 := add_message o.now s Role.assistant out.message (some ("verification"))
              if out.address_verified then
                some (update_state o.now
                  { s1 with
                    active_agent := "master", next_action := none, address_verified := true })
              else
                some (update_state o.now { s1 with active_agent := "master", next_action := none })
            else some s

/-- Identity-token capture (`graph.py:362-389`). -/
def verif_kyc_phase (o : Oracles) (s : State) (lum : Option String) : State :=
  match lum with
  | none => s
  | some m =>
      if m = "" then s
      else
        let pan := pan_search m
        let aad := aad_search m
        let dob := dob_search m
        let em := email_search m
        let ap := alt_phone_search m
        if pan.isSome || aad.isSome || dob.isSome || em.isSome || ap.isSome then
          let s1 := update_state o.now
            { s with
              kyc_pan := (match pan with | some p => some (strUpper p) | none => s.kyc_pan),
              kyc_aadhaar_last4 := (match aad with | some g => g | none => s.kyc_aadhaar_last4),
              kyc_dob := (match dob with | some d => some d | none => s.kyc_dob),
              kyc_email := (match em with | some e => some e | none => s.kyc_email),
              alt_phone := (match ap with | some p => some p | none => s.alt_phone) }
          let msgs :=
            (if pan.isSome then [("PAN captured ✅")] else []) ++
            (if aad.isSome then [("Aadhaar last 4 captured ✅")] else []) ++
            (if dob.isSome then [("DOB captured ✅")] else []) ++
            (if em.isSome then [("Email captured ✅")] else []) ++
            (if ap.isSome then [("Alternate phone captured ✅")] else [])
          add_message o.now s1 Role.assistant (String.intercalate "\n" msgs)
            (some ("verification"))
        else s

/-- Completion notice once PAN, DOB and email are all present (`graph.py:391-394`). -/
def verif_kyc_complete (o : Oracles) (s : State) : State :=
  if ¬s.kyc_verified ∧ optStrTruthy s.kyc_pan ∧ optStrTruthy s.kyc_dob ∧
      optStrTruthy s.kyc_email then
    let s1 := add_message o.now s Role.assistant
      ("✅ Identity details verified successfully.") (some ("verification"))
    update_state o.now { s1 with kyc_verified := true }
  else s

/-- `graph.py:396`. -/
def verif_finish (o : Oracles) (s : State) : State :=
  update_state o.now { s with active_agent := "master", next_action := none }

def verif_tail (o : Oracles) (s : State) (lum : Option String) : Option State :=
  match verif_addr_phase o (verif_code_phase o s lum) lum with
  | none => none
  | some s2 => some (verif_finish o (verif_kyc_complete o (verif_kyc_phase o s2 lum)))

/-- The stripped latest user entry used by the verification node (`graph.py:179-183`). -/
def last_user_trimmed (s : State) : Option String :=
  (last_user_content s).map strTrim

/-- `verification_agent_node` (`graph.py:169-396`); `none` models the node
raising (the address sub-check can raise `IndexError`, `graph.py:347`). -/
def verification_agent_node (o : Oracles) (s : State) : Option State :=
  let lum := last_user_trimmed s
  if verif_uninitialized s then some (verif_start o s)
  else if (match lum with
           | some m => m ≠ "" && hasAnyKw graph_otp_kws (strLower m)
           | none => false) then
    if optStrTruthy s.customer_id then some (verif_send_otp o s)
    else verif_tail o s lum
  else verif_tail o s lum

/-! ## Underwriting and sanction nodes (`graph.py:399-480`) -/

def underwriting_agent_node (o : Oracles) (s : State) : State :=
  match o.processUnderwriting s with
  | UwRes.ok r =>
      let s1 := add_message o.now s Role.assistant r.message (some ("underwriting"))
      let s2 := update_state o.now
        { s1 with
          credit_score := r.credit_score,
          risk_score := r.risk_score,
          underwriting_decision := some r.decision,
          approved_amount := r.approved_amount,
          conditional_requirements := r.conditions,
          rejection_reason := r.elig_reason,
          monthly_emi := (match r.elig_monthly_emi with
            | some v => some v
            | none => s1.monthly_emi),
          total_monthly_obligation := (match r.elig_total_monthly_obligation with
            | some v => some v
            | none => s1.total_monthly_obligation),
          emi_to_income_share := (match r.elig_emi_to_income with
            | some v => some v
            | none => s1.emi_to_income_share),
          underwriting_recommendations := r.recommendations,
          active_agent := "master",
          next_action := none }
      match r.decision with
      | UDecision.approved =>
          update_state o.now { s2 with application_status := AppStatus.approved }
      | UDecision.rejected =>
          update_state o.now { s2 with application_status := AppStatus.rejected }
      | _ => s2
  | UwRes.err e =>
      update_state o.now { s with active_agent := "master", last_error := e }

def sanction_agent_node (o : Oracles) (s : State) : State :=
  match o.generateSanction s with
  | SanRes.ok msg url ref =>
      let s1 := add_message o.now s Role.assistant msg (some ("sanction"))
      update_state o.now
        { s1 with
          sanction_letter_url := some url,
          sanction_letter_ref_no := some ref,
          current_stage := Stage.closure,
          active_agent := "master",
          next_action := none }
  | SanRes.err e =>
      update_state o.now { s with active_agent := "master", last_error := e }

/-! ## Router and cycle (`graph.py:487-580`) -/

inductive Route
  | sales
  | verification
  | underwriting
  | sanction
  | master
  | done
deriving DecidableEq, Repr

/-- `route_master_agent` (`graph.py:487-532`). -/
def route_master_agent (s : State) : Route :=
  if s.next_action == some ("delegate_to_sales") then Route.sales
  else if s.next_action == some ("delegate_to_verification") then Route.verification
  else if s.next_action == some ("delegate_to_underwriting") then Route.underwriting
  else if s.next_action == some ("delegate_to_sanction") then Route.sanction
  else if (s.current_stage == Stage.verification) &&
      (match s.conversation_history.getLast? with
       | some m =>
           m.role == Role.user &&
             (hasAnyKw graph_otp_kws (strLower m.content) ||
              (s.otp_sent && (reSearchB digit46Pat (strLower m.content)).isSome))
       | none => false) then Route.verification
  else if (s.current_stage == Stage.closure) &&
      (s.application_status == AppStatus.approved ||
       s.application_status == AppStatus.rejected ||
       s.application_status == AppStatus.abandoned) then Route.done
  else
    match s.conversation_history.getLast? with
    | some m => if m.role == Role.assistant then Route.done else Route.master
    | none => Route.master

inductive NodeName
  | master
  | sales
  | verification
  | underwriting
  | sanction
deriving DecidableEq, Repr

def run_node (o : Oracles) : NodeName → State → Option State
  | NodeName.master, s => some (master_agent_node o s)
  | NodeName.sales, s => some (sales_agent_node o s)
  | NodeName.verification, s => verification_agent_node o s
  | NodeName.underwriting, s => some (underwriting_agent_node o s)
  | NodeName.sanction, s => some (sanction_agent_node o s)

/-- One cycle of the compiled graph (`create_workflow`, `graph.py:539-580`):
entry at the master node, conditional edges from the master through
`route_master_agent`, every worker edge returning to the master.  `fuel`
bounds the super-steps like the LangGraph recursion limit; `none` models an
exception escaping `invoke` — either `GraphRecursionError` when the fuel is
exhausted before the cycle reaches its end, or a node raising. -/
def step_from (o : Oracles) : Nat → NodeName → State → Option State
  | 0, _, _ => none
  | f + 1, NodeName.master, s =>
      let s2 := master_agent_node o s
      match route_master_agent s2 with
      | Route.done => some s2
      | Route.master => step_from o f NodeName.master s2
      | Route.sales => step_from o f NodeName.sales s2
      | Route.verification => step_from o f NodeName.verification s2
      | Route.underwriting => step_from o f NodeName.underwriting s2
      | Route.sanction => step_from o f NodeName.sanction s2
  | f + 1, NodeName.sales, s => step_from o f NodeName.master (sales_agent_node o s)
  | f + 1, NodeName.verification, s =>
      match verification_agent_node o s with
      | none => none
      | some s2 => step_from o f NodeName.master s2
  | f + 1, NodeName.underwriting, s =>
      step_from o f NodeName.master (underwriting_agent_node o s)
  | f + 1, NodeName.sanction, s => step_from o f NodeName.master (sanction_agent_node o s)

def workflow_recursion_limit : Nat := 25

def workflow_invoke (o : Oracles) (s : State) : Option State :=
  step_from o workflow_recursion_limit NodeName.master s

/-! ## Session manager (`LoanApplicationWorkflow`, `graph.py:587-669`) -/

structure Workflow where
  sessions : List (String × State)

def lookup_session : List (String × State) → String → Option State
  | [], _ => none
  | (k, v) :: rest, sid => if k = sid then some v else lookup_session rest sid

def store_session (l : List (String × State)) (sid : String) (st : State) :
    List (String × State) :=
  l.map (fun p => if p.1 = sid then (sid, st) else p)

def workflow_create_session (w : Workflow) (sid now : String) (cid : Option String) :
    Workflow :=
  ⟨w.sessions ++ [(sid, create_initial_state sid now cid)]⟩

inductive PMResult
  | err (error : String)
  | ok (response : String) (st : State) (stage : Stage) (status : AppStatus)

/-- The response extraction of `process_message` (`graph.py:645-649`): content
of the last assistant entry of the whole history, empty when there is none. -/
def last_assistant_content (h : List Message) : String :=
  ((((h.filter (fun m => m.role == Role.assistant)).map (·.content)).getLast?).getD "")

/-- `LoanApplicationWorkflow.process_message` (`graph.py:611-657`); the
method installs no exception handler, so a raise inside `invoke` escapes the
call (`none`) and the session store is left as it was (`add_message` copies
the record, `state.py:278-279`, and the write-back at `graph.py:642` is
never reached). -/
def workflow_process_message (o : Oracles) (w : Workflow) (sid msg : String) :
    Option (PMResult × Workflow) :=
  match lookup_session w.sessions sid with
  | none => some (PMResult.err ("Session not found"), w)
  | some st =>
      let st1 := add_message o.now st Role.user msg none
      match workflow_invoke o st1 with
      | none => none
      | some st2 =>
          some (PMResult.ok (last_assistant_content st2.conversation_history) st2
             st2.current_stage st2.application_status,
           ⟨store_session w.sessions sid st2⟩)

/-! ## Derived predicates -/

/-- The four delegation directives recognised by the router (`graph.py:495-502`). -/
def is_delegate_action (a : Option String) : Bool :=
  a == some ("delegate_to_sales") || a == some ("delegate_to_verification") ||
  a == some ("delegate_to_underwriting") || a == some ("delegate_to_sanction")

/-- The record `t` extends the record `s` by appending at most `n`
conversation entries, with `total_interactions` advanced by exactly the
number of appended entries.  In particular the log never shrinks and never
reorders. -/
def MsgAppendsAtMost (n : Nat) (s t : State) : Prop :=
  ∃ extra, t.conversation_history = s.conversation_history ++ extra ∧
    t.total_interactions = s.total_interactions + extra.length ∧
    extra.length ≤ n

/-- Unbounded version, for whole-cycle reasoning. -/
def MsgAppends (s t : State) : Prop :=
  ∃ extra, t.conversation_history = s.conversation_history ++ extra ∧
    t.total_interactions = s.total_interactions + extra.length

/-- States reachable for one session through the caller-facing boundary:
creation, then any sequence of processed inbound messages that completed
without raising, each under arbitrary collaborator behaviour (a raising call
stores nothing back). -/
inductive SessionReachable : State → Prop
  | init (sid now : String) (cid : Option String) :
      SessionReachable (create_initial_state sid now cid)
  | msg (o : Oracles) (m : String) (s t : State) :
      SessionReachable s →
      workflow_invoke o (add_message o.now s Role.user m none) = some t →
      SessionReachable t

/-- The code value lives on the record only when the internal fallback issued
it; with the external provider the record never holds the code. -/
def OtpCodeOnlyFallback (s : State) : Prop :=
  ∀ c, s.otp_code = some c → s.otp_provider = some ("demo")

/-! ## Combinators for the append predicates -/

theorem msgAtMost_mono {m n : Nat} {s t : State}
    (h : MsgAppendsAtMost m s t) (hle : m ≤ n) : MsgAppendsAtMost n s t := by
  obtain ⟨extra, e1, e2, e3⟩ := h
  exact ⟨extra, e1, e2, e3.trans hle⟩

theorem msgAtMost_comp {m n : Nat} {s t u : State}
    (h1 : MsgAppendsAtMost m s t) (h2 : MsgAppendsAtMost n t u) :
    MsgAppendsAtMost (m + n) s u := by
  obtain ⟨e1, a1, b1, c1⟩ := h1
  obtain ⟨e2, a2, b2, c2⟩ := h2
  refine ⟨e1 ++ e2, ?_, ?_, ?_⟩
  · rw [a2, a1, List.append_assoc]
  · rw [b2, b1]; simp; omega
  · simp; omega

theorem msgAppends_of_atMost {n : Nat} {s t : State}
    (h : MsgAppendsAtMost n s t) : MsgAppends s t := by
  obtain ⟨extra, a, b, _⟩ := h
  exact ⟨extra, a, b⟩

theorem msgAppends_self (s : State) : MsgAppends s s := ⟨[], by simp, by simp⟩

theorem msgAppends_trans {s t u : State}
    (h1 : MsgAppends s t) (h2 : MsgAppends t u) : MsgAppends s u := by
  obtain ⟨e1, a1, b1⟩ := h1
  obtain ⟨e2, a2, b2⟩ := h2
  refine ⟨e1 ++ e2, ?_, ?_⟩
  · rw [a2, a1, List.append_assoc]
  · rw [b2, b1]; simp; omega

/-- A result state whose log and counter agree with the input appends nothing
(covers every pure record-update branch of a node). -/
theorem appends_zero_shape {n : Nat} {s final : State}
    (h1 : final.conversation_history = s.conversation_history)
    (h2 : final.total_interactions = s.total_interactions) :
    MsgAppendsAtMost n s final :=
  ⟨[], by simp [h1], by simp [h2], by simp⟩

/-- A result state whose log and counter agree with one `add_message` on top
of an intermediate state `X` that itself left both untouched (covers every
single-reply branch of a node). -/
theorem appends_one_shape {s X final : State} {now c : String} {role : Role}
    {ag : Option String}
    (hX1 : X.conversation_history = s.conversation_history)
    (hX2 : X.total_interactions = s.total_interactions)
    (h1 : final.conversation_history = X.conversation_history ++ [⟨role, c, now, ag⟩])
    (h2 : final.total_interactions = X.total_interactions + 1) :
    MsgAppendsAtMost 1 s final :=
  ⟨[⟨role, c, now, ag⟩], by rw [h1, hX1], by rw [h2, hX2]; simp, by simp⟩

/-! ## Routing decisions never mutate: facts about `determine_next_action` -/

theorem dna_state_eq (st : Stage) (m : String) (s : State) :
    (determine_next_action st m s).2.2 = s ∨
    (determine_next_action st m s).2.2 =
      { s with requested_amount := master_extract_amount (strLower m) } := by
  cases st <;> simp only [determine_next_action] <;>
    repeat first
      | (split <;> try simp)
      | simp

theorem dna_hist (st : Stage) (m : String) (s : State) :
    (determine_next_action st m s).2.2.conversation_history = s.conversation_history := by
  rcases dna_state_eq st m s with h | h <;> rw [h]

theorem dna_total (st : Stage) (m : String) (s : State) :
    (determine_next_action st m s).2.2.total_interactions = s.total_interactions := by
  rcases dna_state_eq st m s with h | h <;> rw [h]

/-! ## Per-node append bounds -/

theorem master_node_appends (o : Oracles) (s : State) :
    MsgAppendsAtMost 1 s (master_agent_node o s) := by
  unfold master_agent_node
  dsimp only
  repeat' split
  all_goals first
    | exact appends_one_shape (dna_hist _ _ _) (dna_total _ _ _) rfl rfl
    | exact appends_one_shape (Eq.refl s.conversation_history)
        (Eq.refl s.total_interactions) rfl rfl
    | exact appends_zero_shape rfl rfl

theorem sales_selection_appends (o : Oracles) (s : State) (sel : Offer) :
    MsgAppendsAtMost 1 s (sales_selection_step o s sel) :=
  appends_one_shape (Eq.refl s.conversation_history) (Eq.refl s.total_interactions) rfl rfl

theorem sales_negotiation_appends (o : Oracles) (s : State) (l : String) (cur : Offer) :
    MsgAppendsAtMost 1 s (sales_negotiation_step o s l cur) := by
  unfold sales_negotiation_step
  dsimp only
  repeat' split
  all_goals
    exact appends_one_shape (Eq.refl s.conversation_history)
      (Eq.refl s.total_interactions) rfl rfl

theorem sales_present_appends (o : Oracles) (s : State) :
    MsgAppendsAtMost 1 s (sales_present o s) := by
  unfold sales_present
  dsimp only
  repeat' split
  all_goals first
    | exact appends_one_shape (Eq.refl s.conversation_history)
        (Eq.refl s.total_interactions) rfl rfl
    | exact appends_zero_shape rfl rfl

theorem sales_node_appends (o : Oracles) (s : State) :
    MsgAppendsAtMost 1 s (sales_agent_node o s) := by
  unfold sales_agent_node
  dsimp only
  split
  · exact sales_selection_appends o s _
  · split
    · split
      · exact sales_negotiation_appends o s _ _
      · exact sales_present_appends o s
    · exact sales_present_appends o s

theorem verif_start_appends (o : Oracles) (s : State) :
    MsgAppendsAtMost 1 s (verif_start o s) := by
  unfold verif_start
  dsimp only
  repeat' split
  all_goals first
    | exact appends_one_shape (Eq.refl s.conversation_history)
        (Eq.refl s.total_interactions) rfl rfl
    | exact appends_zero_shape rfl rfl

theorem verif_send_otp_appends (o : Oracles) (s : State) :
    MsgAppendsAtMost 1 s (verif_send_otp o s) := by
  unfold verif_send_otp
  dsimp only
  repeat' split
  all_goals
    exact appends_one_shape (Eq.refl s.conversation_history)
      (Eq.refl s.total_interactions) rfl rfl

theorem verif_code_appends (o : Oracles) (s : State) (lum : Option String) :
    MsgAppendsAtMost 1 s (verif_code_phase o s lum) := by
  unfold verif_code_phase
  dsimp only
  repeat' split
  all_goals first
    | exact appends_one_shape (Eq.refl s.conversation_history)
        (Eq.refl s.total_interactions) rfl rfl
    | exact appends_zero_shape rfl rfl

theorem verif_addr_appends (o : Oracles) (s : State) (lum : Option String) (s2 : State)
    (h : verif_addr_phase o s lum = some s2) : MsgAppendsAtMost 1 s s2 := by
  unfold verif_addr_phase at h
  dsimp only at h
  repeat' split at h
  all_goals first
    | exact Option.noConfusion h
    | (cases Option.some.inj h; first
        | exact appends_one_shape (Eq.refl s.conversation_history)
            (Eq.refl s.total_interactions) rfl rfl
        | exact appends_zero_shape rfl rfl)

theorem verif_kyc_appends (o : Oracles) (s : State) (lum : Option String) :
    MsgAppendsAtMost 1 s (verif_kyc_phase o s lum) := by
  unfold verif_kyc_phase
  dsimp only
  split
  · exact appends_zero_shape rfl rfl
  · split
    · exact appends_zero_shape rfl rfl
    · split
      · exact appends_one_shape (Eq.refl s.conversation_history)
          (Eq.refl s.total_interactions) rfl rfl
      · exact appends_zero_shape rfl rfl

theorem verif_kyc_complete_appends (o : Oracles) (s : State) :
    MsgAppendsAtMost 1 s (verif_kyc_complete o s) := by
  unfold verif_kyc_complete
  dsimp only
  repeat' split
  all_goals first
    | exact appends_one_shape (Eq.refl s.conversation_history)
        (Eq.refl s.total_interactions) rfl rfl
    | exact appends_zero_shape rfl rfl

theorem verif_finish_appends (o : Oracles) (s : State) :
    MsgAppendsAtMost 0 s (verif_finish o s) :=
  appends_zero_shape rfl rfl

theorem verif_tail_appends (o : Oracles) (s : State) (lum : Option String) (s2 : State)
    (h : verif_tail o s lum = some s2) : MsgAppendsAtMost 4 s s2 := by
  unfold verif_tail at h
  cases ha : verif_addr_phase o (verif_code_phase o s lum) lum with
  | none => rw [ha] at h; exact Option.noConfusion h
  | some sX =>
      rw [ha] at h
      cases Option.some.inj h
      exact msgAtMost_comp
        (msgAtMost_comp
          (msgAtMost_comp
            (msgAtMost_comp (verif_code_appends o s lum) (verif_addr_appends o _ lum sX ha))
            (verif_kyc_appends o _ lum))
          (verif_kyc_complete_appends o _))
        (verif_finish_appends o _)

theorem verification_node_appends (o : Oracles) (s : State) (s2 : State)
    (h : verification_agent_node o s = some s2) : MsgAppendsAtMost 4 s s2 := by
  unfold verification_agent_node at h
  dsimp only at h
  split at h
  · cases Option.some.inj h
    exact msgAtMost_mono (verif_start_appends o s) (by omega)
  · split at h
    · split at h
      · cases Option.some.inj h
        exact msgAtMost_mono (verif_send_otp_appends o s) (by omega)
      · exact verif_tail_appends o s _ s2 h
    · exact verif_tail_appends o s _ s2 h

theorem underwriting_node_appends (o : Oracles) (s : State) :
    MsgAppendsAtMost 1 s (underwriting_agent_node o s) := by
  unfold underwriting_agent_node
  dsimp only
  repeat' split
  all_goals first
    | exact appends_one_shape (Eq.refl s.conversation_history)
        (Eq.refl s.total_interactions) rfl rfl
    | exact appends_zero_shape rfl rfl

theorem sanction_node_appends (o : Oracles) (s : State) :
    MsgAppendsAtMost 1 s (sanction_agent_node o s) := by
  unfold sanction_agent_node
  dsimp only
  repeat' split
  all_goals first
    | exact appends_one_shape (Eq.refl s.conversation_history)
        (Eq.refl s.total_interactions) rfl rfl
    | exact appends_zero_shape rfl rfl

/-- The per-stage append bound: four for the verification stage, one for
every other stage. -/
def node_bound : NodeName → Nat
  | NodeName.verification => 4
  | _ => 1

theorem run_node_appends (o : Oracles) (n : NodeName) (s : State) (s2 : State)
    (h : run_node o n s = some s2) : MsgAppendsAtMost (node_bound n) s s2 := by
  cases n
  · cases Option.some.inj h; exact master_node_appends o s
  · cases Option.some.inj h; exact sales_node_appends o s
  · exact verification_node_appends o s s2 h
  · cases Option.some.inj h; exact underwriting_node_appends o s
  · cases Option.some.inj h; exact sanction_node_appends o s

/-- Whole-cycle monotonicity: however many stages run, when the cycle
completes the log only grows by appending, with `total_interactions`
advancing in lockstep. -/
theorem step_from_appends (o : Oracles) :
    ∀ (f : Nat) (n : NodeName) (s t : State),
      step_from o f n s = some t → MsgAppends s t := by
  intro f
  induction f with
  | zero => intro n s t h; cases n <;> exact Option.noConfusion h
  | succ f ih =>
      intro n s t h
      cases n
      case master =>
          have h2 : (match route_master_agent (master_agent_node o s) with
            | Route.done => some (master_agent_node o s)
            | Route.master => step_from o f NodeName.master (master_agent_node o s)
            | Route.sales => step_from o f NodeName.sales (master_agent_node o s)
            | Route.verification => step_from o f NodeName.verification (master_agent_node o s)
            | Route.underwriting => step_from o f NodeName.underwriting (master_agent_node o s)
            | Route.sanction => step_from o f NodeName.sanction (master_agent_node o s)) =
              some t := h
          have h1 : MsgAppends s (master_agent_node o s) :=
            msgAppends_of_atMost (master_node_appends o s)
          split at h2
          · cases Option.some.inj h2; exact h1
          · exact msgAppends_trans h1 (ih _ _ _ h2)
          · exact msgAppends_trans h1 (ih _ _ _ h2)
          · exact msgAppends_trans h1 (ih _ _ _ h2)
          · exact msgAppends_trans h1 (ih _ _ _ h2)
          · exact msgAppends_trans h1 (ih _ _ _ h2)
      case sales =>
          exact msgAppends_trans (msgAppends_of_atMost (sales_node_appends o s)) (ih _ _ _ h)
      case verification =>
          have h2 : (match verification_agent_node o s with
            | none => none
            | some s2 => step_from o f NodeName.master s2) = some t := h
          cases hv : verification_agent_node o s with
          | none => rw [hv] at h2; exact Option.noConfusion h2
          | some sX =>
              rw [hv] at h2
              exact msgAppends_trans
                (msgAppends_of_atMost (verification_node_appends o s sX hv)) (ih _ _ _ h2)
      case underwriting =>
          exact msgAppends_trans
            (msgAppends_of_atMost (underwriting_node_appends o s)) (ih _ _ _ h)
      case sanction =>
          exact msgAppends_trans
            (msgAppends_of_atMost (sanction_node_appends o s)) (ih _ _ _ h)

theorem workflow_invoke_appends (o : Oracles) (s t : State)
    (h : workflow_invoke o s = some t) : MsgAppends s t :=
  step_from_appends o workflow_recursion_limit NodeName.master s t h

/-- The counter bookkeeping of `add_message` keeps `total_interactions` equal
to the length of the conversation log along every session history. -/
theorem session_total_eq_len (s : State) (h : SessionReachable s) :
    s.total_interactions = s.conversation_history.length := by
  induction h with
  | init sid now cid => rfl
  | msg o m s t hs hinv ih =>
      obtain ⟨extra, h1, h2⟩ :=
        workflow_invoke_appends o (add_message o.now s Role.user m none) t hinv
      rw [h1, h2]
      simp only [add_message, update_state, List.length_append, List.length_cons,
        List.length_nil]
      omega

/-! ## Preservation of the code-storage invariant (claim C6) -/

theorem dna_otp_code (st : Stage) (m : String) (s : State) :
    (determine_next_action st m s).2.2.otp_code = s.otp_code := by
  rcases dna_state_eq st m s with h | h <;> rw [h]

theorem dna_otp_provider (st : Stage) (m : String) (s : State) :
    (determine_next_action st m s).2.2.otp_provider = s.otp_provider := by
  rcases dna_state_eq st m s with h | h <;> rw [h]

theorem otpinv_of_fields {s t : State} (h : OtpCodeOnlyFallback s)
    (e1 : t.otp_code = s.otp_code) (e2 : t.otp_provider = s.otp_provider) :
    OtpCodeOnlyFallback t := by
  intro c hc
  rw [e2]
  exact h c (by rw [← e1]; exact hc)

theorem master_node_otpinv (o : Oracles) (s : State) (h : OtpCodeOnlyFallback s) :
    OtpCodeOnlyFallback (master_agent_node o s) := by
  unfold master_agent_node
  dsimp only
  split
  · exact h
  · split
    · exact otpinv_of_fields h (dna_otp_code _ _ _) (dna_otp_provider _ _ _)
    · exact h

theorem sales_node_otpinv (o : Oracles) (s : State) (h : OtpCodeOnlyFallback s) :
    OtpCodeOnlyFallback (sales_agent_node o s) := by
  unfold sales_agent_node sales_selection_step sales_negotiation_step sales_present
  dsimp only
  repeat' split
  all_goals exact h

theorem verif_code_otpinv (o : Oracles) (s : State) (lum : Option String)
    (h : OtpCodeOnlyFallback s) : OtpCodeOnlyFallback (verif_code_phase o s lum) := by
  unfold verif_code_phase
  dsimp only
  repeat' split
  all_goals first
    | exact h
    | exact fun c hc => nomatch hc

theorem verif_addr_otpinv (o : Oracles) (s : State) (lum : Option String) (s2 : State)
    (hs2 : verif_addr_phase o s lum = some s2)
    (h : OtpCodeOnlyFallback s) : OtpCodeOnlyFallback s2 := by
  unfold verif_addr_phase at hs2
  dsimp only at hs2
  repeat' split at hs2
  all_goals first
    | exact Option.noConfusion hs2
    | (cases Option.some.inj hs2; exact h)

theorem verif_kyc_otpinv (o : Oracles) (s : State) (lum : Option String)
    (h : OtpCodeOnlyFallback s) : OtpCodeOnlyFallback (verif_kyc_phase o s lum) := by
  unfold verif_kyc_phase
  dsimp only
  repeat' split
  all_goals exact fun c hc => h c hc

theorem verif_kyc_complete_otpinv (o : Oracles) (s : State)
    (h : OtpCodeOnlyFallback s) : OtpCodeOnlyFallback (verif_kyc_complete o s) := by
  unfold verif_kyc_complete
  dsimp only
  repeat' split
  all_goals exact h

theorem verif_finish_otpinv (o : Oracles) (s : State)
    (h : OtpCodeOnlyFallback s) : OtpCodeOnlyFallback (verif_finish o s) := h

theorem verif_tail_otpinv (o : Oracles) (s : State) (lum : Option String) (s2 : State)
    (hs2 : verif_tail o s lum = some s2)
    (h : OtpCodeOnlyFallback s) : OtpCodeOnlyFallback s2 := by
  unfold verif_tail at hs2
  cases ha : verif_addr_phase o (verif_code_phase o s lum) lum with
  | none => rw [ha] at hs2; exact Option.noConfusion hs2
  | some sX =>
      rw [ha] at hs2
      cases Option.some.inj hs2
      exact verif_finish_otpinv o _
        (verif_kyc_complete_otpinv o _
          (verif_kyc_otpinv o _ lum
            (verif_addr_otpinv o _ lum sX ha
              (verif_code_otpinv o s lum h))))

theorem verif_send_otpinv (o : Oracles) (s : State)
    (h : OtpCodeOnlyFallback s) : OtpCodeOnlyFallback (verif_send_otp o s) := by
  unfold verif_send_otp
  dsimp only
  repeat' split
  all_goals first
    | exact fun c hc => rfl
    | exact fun c hc => nomatch hc

theorem verification_node_otpinv (o : Oracles) (s : State) (s2 : State)
    (hs2 : verification_agent_node o s = some s2)
    (h : OtpCodeOnlyFallback s) : OtpCodeOnlyFallback s2 := by
  unfold verification_agent_node verif_start at hs2
  dsimp only at hs2
  repeat' split at hs2
  all_goals first
    | exact Option.noConfusion hs2
    | exact verif_tail_otpinv o s _ s2 hs2 h
    | (cases Option.some.inj hs2; first
        | exact h
        | exact verif_send_otpinv o s h)

theorem underwriting_node_otpinv (o : Oracles) (s : State) (h : OtpCodeOnlyFallback s) :
    OtpCodeOnlyFallback (underwriting_agent_node o s) := by
  unfold underwriting_agent_node
  dsimp only
  repeat' split
  all_goals exact h

theorem sanction_node_otpinv (o : Oracles) (s : State) (h : OtpCodeOnlyFallback s) :
    OtpCodeOnlyFallback (sanction_agent_node o s) := by
  unfold sanction_agent_node
  dsimp only
  repeat' split
  all_goals exact h

theorem run_node_otpinv (o : Oracles) (n : NodeName) (s : State) (s2 : State)
    (hs2 : run_node o n s = some s2)
    (h : OtpCodeOnlyFallback s) : OtpCodeOnlyFallback s2 := by
  cases n
  · cases Option.some.inj hs2; exact master_node_otpinv o s h
  · cases Option.some.inj hs2; exact sales_node_otpinv o s h
  · exact verification_node_otpinv o s s2 hs2 h
  · cases Option.some.inj hs2; exact underwriting_node_otpinv o s h
  · cases Option.some.inj hs2; exact sanction_node_otpinv o s h

theorem step_from_otpinv (o : Oracles) :
    ∀ (f : Nat) (n : NodeName) (s t : State), step_from o f n s = some t →
      OtpCodeOnlyFallback s → OtpCodeOnlyFallback t := by
  intro f
  induction f with
  | zero => intro n s t ht h; cases n <;> exact Option.noConfusion ht
  | succ f ih =>
      intro n s t ht h
      cases n
      case master =>
          have h2 : (match route_master_agent (master_agent_node o s) with
            | Route.done => some (master_agent_node o s)
            | Route.master => step_from o f NodeName.master (master_agent_node o s)
            | Route.sales => step_from o f NodeName.sales (master_agent_node o s)
            | Route.verification => step_from o f NodeName.verification (master_agent_node o s)
            | Route.underwriting => step_from o f NodeName.underwriting (master_agent_node o s)
            | Route.sanction => step_from o f NodeName.sanction (master_agent_node o s)) =
              some t := ht
          have h1 := master_node_otpinv o s h
          split at h2
          · cases Option.some.inj h2; exact h1
          · exact ih _ _ _ h2 h1
          · exact ih _ _ _ h2 h1
          · exact ih _ _ _ h2 h1
          · exact ih _ _ _ h2 h1
          · exact ih _ _ _ h2 h1
      case sales => exact ih _ _ _ ht (sales_node_otpinv o s h)
      case verification =>
          have h2 : (match verification_agent_node o s with
            | none => none
            | some s2 => step_from o f NodeName.master s2) = some t := ht
          cases hv : verification_agent_node o s with
          | none => rw [hv] at h2; exact Option.noConfusion h2
          | some sX =>
              rw [hv] at h2
              exact ih _ _ _ h2 (verification_node_otpinv o s sX hv h)
      case underwriting => exact ih _ _ _ ht (underwriting_node_otpinv o s h)
      case sanction => exact ih _ _ _ ht (sanction_node_otpinv o s h)

theorem session_otpinv (s : State) (h : SessionReachable s) : OtpCodeOnlyFallback s := by
  induction h with
  | init sid now cid => exact fun c hc => nomatch hc
  | msg o m s t hs hinv ih =>
      exact step_from_otpinv o workflow_recursion_limit NodeName.master _ t hinv ih

/-! ## Scenario lemmas for the one-time-code flow (claim C4) -/

theorem vnode_to_tail (o : Oracles) (s : State) (m : String)
    (hinit : verif_uninitialized s = false)
    (hm : last_user_trimmed s = some m)
    (hkw : hasAnyKw graph_otp_kws (strLower m) = false) :
    verification_agent_node o s = verif_tail o s (some m) := by
  unfold verification_agent_node
  rw [hinit, hm]
  simp [hkw]

theorem vnode_to_send (o : Oracles) (s : State) (m : String)
    (hinit : verif_uninitialized s = false)
    (hm : last_user_trimmed s = some m)
    (hne : m ≠ "")
    (hkw : hasAnyKw graph_otp_kws (strLower m) = true)
    (hcid : optStrTruthy s.customer_id = true) :
    verification_agent_node o s = some (verif_send_otp o s) := by
  unfold verification_agent_node
  rw [hinit, hm]
  simp [hkw, hne, hcid]

theorem addr_phase_skip (o : Oracles) (s : State) (m : String) (a : Option String)
    (ha : addr_text_of m = some a)
    (hfal : optStrTruthy a = false) :
    verif_addr_phase o s (some m) = some s := by
  unfold verif_addr_phase
  dsimp only
  split
  · rfl
  · rw [ha]
    dsimp only
    rw [if_neg]
    intro hcontra
    rw [hfal] at hcontra
    exact absurd hcontra.1 (by simp)

theorem kyc_phase_skip (o : Oracles) (s : State) (m : String)
    (h1 : pan_search m = none) (h2 : aad_search m = none) (h3 : dob_search m = none)
    (h4 : email_search m = none) (h5 : alt_phone_search m = none) :
    verif_kyc_phase o s (some m) = s := by
  unfold verif_kyc_phase
  dsimp only
  split
  · rfl
  · rw [if_neg]
    rw [h1, h2, h3, h4, h5]
    simp

theorem kyc_complete_skip (o : Oracles) (s : State) (h : s.kyc_verified = true) :
    verif_kyc_complete o s = s := by
  unfold verif_kyc_complete
  rw [if_neg]
  intro hcontra
  rw [h] at hcontra
  exact absurd hcontra.1 (by simp)

theorem send_otp_demo_fields (o : Oracles) (s : State)
    (htw : o.twilioConfigured = false) :
    (verif_send_otp o s).otp_sent = true ∧
    (verif_send_otp o s).otp_attempts = 0 ∧
    (verif_send_otp o s).otp_provider = some ("demo") ∧
    (verif_send_otp o s).otp_code =
      some (o.simulateOtp (normalize_phone (otp_phone_source o s))) ∧
    (verif_send_otp o s).current_stage = s.current_stage := by
  unfold verif_send_otp
  rw [htw]
  exact ⟨rfl, rfl, rfl, rfl, rfl⟩

/-- Demo-path code check, wrong code, attempts still below the lockout:
the attempt counter advances and everything else of the code state stays. -/
theorem code_phase_demo_wrong (o : Oracles) (s : State) (m d c : String)
    (hsent : s.otp_sent = true)
    (hprov : s.otp_provider = some ("demo"))
    (hcode : s.otp_code = some c) (hcne : c ≠ "")
    (hne : m ≠ "")
    (hd : digit46_search m = some d) (hdc : d ≠ c)
    (hlt : s.otp_attempts + 1 < 3) :
    verif_code_phase o s (some m) =
      update_state o.now
        { add_message o.now s Role.assistant (demo_wrong_try_msg (3 - (s.otp_attempts + 1)))
            (some ("verification")) with
          otp_attempts := s.otp_attempts + 1,
          active_agent := "master",
          next_action := none } := by
  unfold verif_code_phase
  dsimp only
  rw [if_pos ⟨hne, by rw [hd]; rfl⟩]
  rw [hd, hsent, hprov, hcode]
  have hbeq1 : ((some ("demo") : Option String) == some ("twilio")) = false := by decide
  have hbeq2 : ((some d : Option String) == some c) = false := by
    simp [hdc]
  have htr : optStrTruthy (some c) = true := by simp [optStrTruthy, hcne]
  rw [hbeq1]
  simp only [Bool.true_and, Bool.and_false, Bool.false_and, Bool.if_false_left,
    Bool.false_eq_true, if_false, htr, Bool.and_true, Bool.and_self, if_true, hbeq2]
  rw [if_neg (by omega)]

/-- Demo-path code check, third consecutive wrong code: lockout clears the
sent flag and the stored code, resets the counter, and the appended reply
tells the user to request a new code. -/
theorem code_phase_demo_third_wrong (o : Oracles) (s : State) (m d c : String)
    (hsent : s.otp_sent = true)
    (hprov : s.otp_provider = some ("demo"))
    (hcode : s.otp_code = some c) (hcne : c ≠ "")
    (hne : m ≠ "")
    (hd : digit46_search m = some d) (hdc : d ≠ c)
    (hatt : s.otp_attempts = 2) :
    verif_code_phase o s (some m) =
      update_state o.now
        { add_message o.now s Role.assistant demo_max_attempts_msg (some ("verification")) with
          otp_sent := false,
          otp_code := none,
          otp_attempts := 0,
          active_agent := "master",
          next_action := none } := by
  unfold verif_code_phase
  dsimp only
  rw [if_pos ⟨hne, by rw [hd]; rfl⟩]
  rw [hd, hsent, hprov, hcode, hatt]
  have hbeq1 : ((some ("demo") : Option String) == some ("twilio")) = false := by decide
  have hbeq2 : ((some d : Option String) == some c) = false := by
    simp [hdc]
  have htr : optStrTruthy (some c) = true := by simp [optStrTruthy, hcne]
  rw [hbeq1]
  simp only [Bool.true_and, Bool.and_false, Bool.false_and, Bool.if_false_left,
    Bool.false_eq_true, if_false, htr, Bool.and_true, Bool.and_self, if_true, hbeq2]
  rw [if_pos (by omega)]

/-- Demo-path code check, correct code: the phone becomes verified and the
stored code is cleared. -/
theorem code_phase_demo_correct (o : Oracles) (s : State) (m c : String)
    (hsent : s.otp_sent = true)
    (hprov : s.otp_provider = some ("demo"))
    (hcode : s.otp_code = some c) (hcne : c ≠ "")
    (hne : m ≠ "")
    (hd : digit46_search m = some c) :
    verif_code_phase o s (some m) =
      update_state o.now
        { add_message o.now s Role.assistant demo_phone_verified_msg (some ("verification")) with
          phone_verified := true,
          otp_sent := false,
          otp_code := none,
          otp_attempts := 0,
          active_agent := "master",
          next_action := none } := by
  unfold verif_code_phase
  dsimp only
  rw [if_pos ⟨hne, by rw [hd]; rfl⟩]
  rw [hd, hsent, hprov, hcode]
  have hbeq1 : ((some ("demo") : Option String) == some ("twilio")) = false := by decide
  have htr : optStrTruthy (some c) = true := by simp [optStrTruthy, hcne]
  rw [hbeq1]
  simp only [Bool.true_and, Bool.and_false, Bool.false_and, Bool.if_false_left,
    Bool.false_eq_true, if_false, htr, Bool.and_true, Bool.and_self, if_true, beq_self_eq_true]

/-! ## Router lemmas (claims C1 and C8) -/

/-- Re-entering the orchestrator when the latest entry is already an
assistant reply changes nothing (`graph.py:35-37`). -/
theorem master_node_id_on_assistant (o : Oracles) (s : State) (m : Message)
    (h1 : s.conversation_history.getLast? = some m)
    (h2 : m.role = Role.assistant) :
    master_agent_node o s = s := by
  unfold master_agent_node
  rw [h1]
  simp [h2]

/-- Rule 4 of the router: with no delegation pending, an assistant reply as
the latest entry ends the cycle (`graph.py:523-529`). -/
theorem route_end_after_assistant (s : State) (m : Message)
    (h1 : s.conversation_history.getLast? = some m)
    (h2 : m.role = Role.assistant)
    (h3 : is_delegate_action s.next_action = false) :
    route_master_agent s = Route.done := by
  unfold route_master_agent
  simp only [is_delegate_action, Bool.or_eq_false_iff, beq_eq_false_iff_ne, ne_eq] at h3
  obtain ⟨⟨⟨n1, n2⟩, n3⟩, n4⟩ := h3
  simp [n1, n2, n3, n4, h1, h2]

/-! ## Digit-free text never parses to an amount (claim C3) -/

theorem countWhile_digit_zero (l : List Char) (h : ∀ c ∈ l, isDigitCh c = false) :
    countWhile isDigitCh l = 0 := by
  cases l with
  | nil => rfl
  | cons c rest => unfold countWhile; rw [h c (by simp)]; rfl

theorem mchars_digit_nil (lo : Nat) (hi : Option Nat) (hlo : 1 ≤ lo) (l : List Char)
    (h : ∀ c ∈ l, isDigitCh c = false) : mChars isDigitCh lo hi l = [] := by
  unfold mChars
  rw [countWhile_digit_zero l h]
  cases hi with
  | none => dsimp only; rw [if_pos (by omega)]
  | some k => dsimp only; rw [Nat.min_zero, if_pos (by omega)]

theorem mSeq_nil {a : Matcher} (b : Matcher) (l : List Char) (h : a l = []) :
    mSeq a b l = [] := by
  unfold mSeq; rw [h]; rfl

theorem mCap_nil {a : Matcher} (l : List Char) (h : a l = []) : mCap a l = [] := by
  unfold mCap; rw [h]; rfl

theorem numGroup_nil (l : List Char) (h : ∀ c ∈ l, isDigitCh c = false) :
    numGroup l = [] := by
  unfold numGroup
  exact mCap_nil l (mSeq_nil _ l (mchars_digit_nil 1 none (by omega) l h))

theorem searchAux_digit_none (mm : Matcher)
    (hmm : ∀ l : List Char, (∀ c ∈ l, isDigitCh c = false) → mm l = []) :
    ∀ (prev : Option Char) (t : List Char), (∀ c ∈ t, isDigitCh c = false) →
      searchAux false mm prev t = none := by
  intro prev t
  induction t generalizing prev with
  | nil =>
      intro h
      unfold searchAux
      simp [tryAt, hmm [] (by simp)]
  | cons c rest ih =>
      intro h
      unfold searchAux
      have h1 : tryAt false mm prev (c :: rest) = none := by
        simp [tryAt, hmm (c :: rest) h]
      rw [h1]
      exact ih (some c) (fun x hx => h x (by simp [hx]))

theorem master_extract_amount_none (t : String)
    (h : ∀ c ∈ t.toList, isDigitCh c = false) : master_extract_amount t = none := by
  have r1 : reSearch lakhPat t = none :=
    searchAux_digit_none lakhPat (fun l hl => mSeq_nil _ l (numGroup_nil l hl)) none t.toList h
  have r2 : reSearch bareLPat t = none :=
    searchAux_digit_none bareLPat (fun l hl => mSeq_nil _ l (numGroup_nil l hl)) none t.toList h
  have r3 : reSearch thousandPat t = none :=
    searchAux_digit_none thousandPat (fun l hl => mSeq_nil _ l (numGroup_nil l hl)) none t.toList h
  have r4 : reSearch dig4Pat t = none :=
    searchAux_digit_none dig4Pat
      (fun l hl => mCap_nil l (mchars_digit_nil 4 none (by omega) l hl)) none t.toList h
  unfold master_extract_amount master_amount_patterns
  simp [List.findSome?, r1, r2, r3, r4, grp1]

/-! ## One-time-code flow scenarios on the fallback provider (claim C4) -/

/-- When the address extraction returns a falsy text without raising and no
identity token is present, the verification tail is the code phase alone
(plus the closing cursor reset), and in particular the node completes. -/
theorem verif_tail_code_only (o : Oracles) (s : State) (m : String) (a : Option String)
    (ha : addr_text_of m = some a) (hfal : optStrTruthy a = false)
    (k1 : pan_search m = none) (k2 : aad_search m = none) (k3 : dob_search m = none)
    (k4 : email_search m = none) (k5 : alt_phone_search m = none)
    (hkv : (verif_code_phase o s (some m)).kyc_verified = true) :
    verif_tail o s (some m) = some (verif_finish o (verif_code_phase o s (some m))) := by
  unfold verif_tail
  rw [addr_phase_skip o (verif_code_phase o s (some m)) m a ha hfal]
  dsimp only
  rw [kyc_phase_skip o (verif_code_phase o s (some m)) m k1 k2 k3 k4 k5,
    kyc_complete_skip o (verif_code_phase o s (some m)) hkv]

theorem otp_request_scenario (o : Oracles) (s : State) (m : String)
    (htw : o.twilioConfigured = false)
    (hinit : verif_uninitialized s = false)
    (hm : last_user_trimmed s = some m) (hne : m ≠ "")
    (hkw : hasAnyKw graph_otp_kws (strLower m) = true)
    (hcid : optStrTruthy s.customer_id = true) :
    ∃ t, verification_agent_node o s = some t ∧
      (t.otp_sent = true ∧
       t.otp_attempts = 0 ∧
       t.otp_provider = some ("demo") ∧
       t.otp_code = some (o.simulateOtp (normalize_phone (otp_phone_source o s))) ∧
       t.current_stage = s.current_stage) :=
  ⟨verif_send_otp o s, vnode_to_send o s m hinit hm hne hkw hcid,
   send_otp_demo_fields o s htw⟩

theorem otp_wrong_scenario (o : Oracles) (s : State) (m d c : String) (a : Option String)
    (hsent : s.otp_sent = true)
    (hprov : s.otp_provider = some ("demo"))
    (hcd : s.otp_code = some c) (hcne : c ≠ "")
    (hkv : s.kyc_verified = true)
    (hm : last_user_trimmed s = some m) (hne : m ≠ "")
    (hkw : hasAnyKw graph_otp_kws (strLower m) = false)
    (hd : digit46_search m = some d) (hdc : d ≠ c)
    (ha : addr_text_of m = some a) (hfal : optStrTruthy a = false)
    (k1 : pan_search m = none) (k2 : aad_search m = none) (k3 : dob_search m = none)
    (k4 : email_search m = none) (k5 : alt_phone_search m = none)
    (hlt : s.otp_attempts + 1 < 3) :
    ∃ t, verification_agent_node o s = some t ∧
      (t.otp_attempts = s.otp_attempts + 1 ∧
       t.otp_sent = true ∧
       t.otp_code = some c ∧
       t.current_stage = s.current_stage) := by
  have hinit : verif_uninitialized s = false := by
    unfold verif_uninitialized; rw [hsent]; simp
  have e2 := code_phase_demo_wrong o s m d c hsent hprov hcd hcne hne hd hdc hlt
  have htail := verif_tail_code_only o s m a ha hfal k1 k2 k3 k4 k5 (by rw [e2]; exact hkv)
  have hnode : verification_agent_node o s =
      some (verif_finish o (verif_code_phase o s (some m))) := by
    rw [vnode_to_tail o s m hinit hm hkw]; exact htail
  refine ⟨_, hnode, ?_⟩
  rw [e2]
  exact ⟨rfl, hsent, hcd, rfl⟩

theorem otp_third_wrong_scenario (o : Oracles) (s : State) (m d c : String)
    (a : Option String)
    (hsent : s.otp_sent = true)
    (hprov : s.otp_provider = some ("demo"))
    (hcd : s.otp_code = some c) (hcne : c ≠ "")
    (hkv : s.kyc_verified = true)
    (hm : last_user_trimmed s = some m) (hne : m ≠ "")
    (hkw : hasAnyKw graph_otp_kws (strLower m) = false)
    (hd : digit46_search m = some d) (hdc : d ≠ c)
    (ha : addr_text_of m = some a) (hfal : optStrTruthy a = false)
    (k1 : pan_search m = none) (k2 : aad_search m = none) (k3 : dob_search m = none)
    (k4 : email_search m = none) (k5 : alt_phone_search m = none)
    (hatt : s.otp_attempts = 2) :
    ∃ t, verification_agent_node o s = some t ∧
      (t.otp_sent = false ∧
       t.otp_attempts = 0 ∧
       t.otp_code = none ∧
       t.conversation_history =
         s.conversation_history ++
           [⟨Role.assistant, demo_max_attempts_msg, o.now, some ("verification")⟩] ∧
       t.current_stage = s.current_stage) := by
  have hinit : verif_uninitialized s = false := by
    unfold verif_uninitialized; rw [hsent]; simp
  have e2 := code_phase_demo_third_wrong o s m d c hsent hprov hcd hcne hne hd hdc hatt
  have htail := verif_tail_code_only o s m a ha hfal k1 k2 k3 k4 k5 (by rw [e2]; exact hkv)
  have hnode : verification_agent_node o s =
      some (verif_finish o (verif_code_phase o s (some m))) := by
    rw [vnode_to_tail o s m hinit hm hkw]; exact htail
  refine ⟨_, hnode, ?_⟩
  rw [e2]
  exact ⟨rfl, rfl, rfl, rfl, rfl⟩

theorem otp_correct_scenario (o : Oracles) (s : State) (m c : String) (a : Option String)
    (hsent : s.otp_sent = true)
    (hprov : s.otp_provider = some ("demo"))
    (hcd : s.otp_code = some c) (hcne : c ≠ "")
    (hkv : s.kyc_verified = true)
    (hm : last_user_trimmed s = some m) (hne : m ≠ "")
    (hkw : hasAnyKw graph_otp_kws (strLower m) = false)
    (hd : digit46_search m = some c)
    (ha : addr_text_of m = some a) (hfal : optStrTruthy a = false)
    (k1 : pan_search m = none) (k2 : aad_search m = none) (k3 : dob_search m = none)
    (k4 : email_search m = none) (k5 : alt_phone_search m = none) :
    ∃ t, verification_agent_node o s = some t ∧
      (t.phone_verified = true ∧
       t.otp_sent = false ∧
       t.otp_code = none ∧
       t.otp_attempts = 0 ∧
       t.current_stage = s.current_stage) := by
  have hinit : verif_uninitialized s = false := by
    unfold verif_uninitialized; rw [hsent]; simp
  have e2 := code_phase_demo_correct o s m c hsent hprov hcd hcne hne hd
  have htail := verif_tail_code_only o s m a ha hfal k1 k2 k3 k4 k5 (by rw [e2]; exact hkv)
  have hnode : verification_agent_node o s =
      some (verif_finish o (verif_code_phase o s (some m))) := by
    rw [vnode_to_tail o s m hinit hm hkw]; exact htail
  refine ⟨_, hnode, ?_⟩
  rw [e2]
  exact ⟨rfl, rfl, rfl, rfl, rfl⟩

/-! ## Concrete collaborator behaviours and record states

These instantiate the opaque collaborators with simple total functions so
that single cycles of the workflow can be evaluated in closed form. -/

def demo_offer : Offer :=
  { amount := 300000, tenure_months := 24, interest_rate := 14 / 100,
    monthly_emi := 14400, tenure_display := "2 years (24 months)" }

def demo_oracles : Oracles where
  now := "t1"
  masterLLM := fun _ _ => "Okay, let me help you with that."
  twilioConfigured := false
  getCustomerById := fun _ =>
    some { name := "Rajesh Kumar", phone := "9876543210", city := "Mumbai",
           kyc_status := some ("verified") }
  simulateOtp := fun _ => "482913"
  verifyCustomerDetails := fun _ _ => { verified := true, mismatches := [] }
  twilioSendOtp := fun _ => { success := true, message := "OTP sent.", error := "" }
  twilioVerifyOtp := fun _ _ => { success := true, verified := true, message := some ("ok") }
  processSales := fun _ _ _ => SalesRes.ok [demo_offer] demo_offer "Here are your offers!"
  handleNegotiation := fun _ _ _ =>
    { response := "Negotiated.", negotiation_approved := false,
      new_rate := none, new_emi := none }
  processUnderwriting := fun _ => UwRes.err none
  generateSanction := fun _ => SanRes.err none

def demo_session : State := create_initial_state ("s1") ("t0") (some ("CUST001"))

def demo_workflow : Workflow := ⟨[(("s1"), demo_session)]⟩

def session_after (o : Oracles) (w : Workflow) (sid msg : String) : Option State :=
  (workflow_process_message o w sid msg).bind (fun r => lookup_session r.2.sessions sid)

def assistant_count (h : List Message) : Nat :=
  (h.filter (fun m => m.role == Role.assistant)).length

def demo_assistant_last : State :=
  { demo_session with
    conversation_history :=
      [⟨Role.user, "hi", "t0", none⟩,
       ⟨Role.assistant, "Hello!", "t0", some ("master")⟩],
    total_interactions := 2 }

def demo_addr_state : State :=
  { demo_session with
    kyc_pan := some ("ABCDE1234F"),
    current_stage := Stage.verification,
    conversation_history :=
      [⟨Role.user, "email: john@doe.com and my address is 12-B Main Street", "t0", none⟩],
    total_interactions := 1 }

def demo_send_state : State :=
  { demo_session with
    kyc_pan := some ("ABCDE1234F"),
    current_stage := Stage.verification,
    conversation_history := [⟨Role.user, "SEND OTP", "t0", none⟩],
    total_interactions := 1 }

def demo_code_state : State :=
  { demo_session with
    otp_sent := true,
    otp_provider := some ("demo"),
    otp_code := some ("482913"),
    otp_phone := some ("+919876543210"),
    kyc_verified := true,
    current_stage := Stage.verification,
    conversation_history := [⟨Role.user, "111111", "t0", none⟩],
    total_interactions := 1 }

def demo_code_state3 : State := { demo_code_state with otp_attempts := 2 }

def demo_code_right : State :=
  { demo_code_state with
    conversation_history := [⟨Role.user, "482913", "t0", none⟩] }

def demo_reroute_state : State :=
  { demo_session with
    current_stage := Stage.verification,
    conversation_history := [⟨Role.user, "otp please", "t0", none⟩],
    total_interactions := 1 }

def demo_uw_state (d : UDecision) : State :=
  { demo_session with
    current_stage := Stage.underwriting,
    underwriting_decision := some d }

def demo_doc_state : State :=
  { demo_session with
    current_stage := Stage.document_upload,
    salary_slip_uploaded := true }

/-- The record reached by one completed inbound `hello` on the fresh demo
session. -/
def demo_hello_state : State :=
  (workflow_invoke demo_oracles
    (add_message demo_oracles.now demo_session Role.user ("hello") none)).getD demo_session

/-- The result of one completed `process_message` call of `hello` on the
demo store. -/
def demo_hello_result : PMResult × Workflow :=
  (workflow_process_message demo_oracles demo_workflow ("s1") ("hello")).getD
    (PMResult.err (""), demo_workflow)

/-- A session that accepted an offer without any customer id on record: the
acceptance delegates to verification, whose startup error path keeps the
delegation pending action set, so the cycle loops until the recursion limit. -/
def demo_loop_session : State :=
  { create_initial_state ("s2") ("t0") none with current_stage := Stage.sales_negotiation }

def demo_loop_workflow : Workflow := ⟨[(("s2"), demo_loop_session)]⟩


/-! ## The claims -/

/-- C1, counterexample: the claim says a single `process_message` call never
produces two assistant replies for the same inbound user message.  On a fresh
session (empty log) the inbound text `I need 3 lakh rupees` makes the
orchestrator reply and delegate to sales, which replies again: one call
appends two assistant messages. -/
theorem C1_counterexample :
    demo_session.conversation_history = [] ∧
    (session_after demo_oracles demo_workflow ("s1") ("I need 3 lakh rupees")).map
      (fun st => assistant_count st.conversation_history) = some 2 :=
  ⟨rfl, rfl⟩

/-- C1, amended: once the most recent conversation-history entry is an
assistant message and no delegation pending action is set, the router
terminates the cycle, and re-entering the orchestrator appends nothing — so
no stage replies twice to the same inbound message, although one call may
append one orchestrator reply plus one specialist reply. -/
theorem C1_router_terminates_after_assistant_reply :
    ∀ (o : Oracles) (s : State) (m : Message),
      s.conversation_history.getLast? = some m →
      m.role = Role.assistant →
      is_delegate_action s.next_action = false →
      route_master_agent s = Route.done ∧ master_agent_node o s = s :=
  fun o s m h1 h2 h3 =>
    ⟨route_end_after_assistant s m h1 h2 h3, master_node_id_on_assistant o s m h1 h2⟩

/-- C1, witness: the amended claim at a concrete record whose latest entry is
an assistant reply. -/
theorem C1_witness :
    route_master_agent demo_assistant_last = Route.done ∧
    master_agent_node demo_oracles demo_assistant_last = demo_assistant_last :=
  C1_router_terminates_after_assistant_reply demo_oracles demo_assistant_last
    ⟨Role.assistant, "Hello!", "t0", some ("master")⟩ rfl rfl rfl

/-- C2, counterexample: the claim says `total_interactions` equals the number
of completed `process_message` calls.  After exactly one completed call on a
fresh session the counter reads 2 (the appended user message and the
assistant reply), not 1. -/
theorem C2_counterexample :
    (session_after demo_oracles demo_workflow ("s1") ("hello")).map
      (fun st => st.total_interactions) = some 2 ∧
    ¬((session_after demo_oracles demo_workflow ("s1") ("hello")).map
      (fun st => st.total_interactions) = some 1) := by
  constructor
  · rfl
  · rw [show (session_after demo_oracles demo_workflow ("s1") ("hello")).map
      (fun st => st.total_interactions) = some 2 from rfl]
    decide

/-- C2, amended: for every session, after any sequence of completed
`process_message` calls, `total_interactions` equals the number of messages
in the conversation log — every appended message increments it by one — not
the number of calls. -/
theorem C2_total_interactions_counts_messages :
    ∀ s : State, SessionReachable s →
      s.total_interactions = s.conversation_history.length :=
  fun s h => session_total_eq_len s h

/-- C2, witness: the amended claim at the state reached after one processed
inbound message on a fresh session. -/
theorem C2_witness :
    demo_hello_state.total_interactions = demo_hello_state.conversation_history.length :=
  C2_total_interactions_counts_messages demo_hello_state
    (SessionReachable.msg demo_oracles ("hello") demo_session demo_hello_state
      (SessionReachable.init ("s1") ("t0") (some ("CUST001"))) rfl)

/-- C3, counterexample: the claim says that on any match the parsed amount is
written back to the record.  The bare digit run `0000` matches the fourth
pattern and parses to 0, yet the greeting stage treats the zero as no amount:
the returned record still has no requested amount and the cursor stays. -/
theorem C3_counterexample :
    master_extract_amount (strLower ("0000")) = some 0 ∧
    determine_next_action Stage.greeting ("0000") demo_session =
      (none, Stage.greeting, demo_session) ∧
    demo_session.requested_amount = none := by
  refine ⟨by decide, ?_, rfl⟩
  rfl

/-- C3, amended: amount extraction follows the stated precedence with first
match winning (`3 lakh` → 300000, `50k` → 50000, `250000` → 250000, `2500k` →
2500000 and `1234 lakh` → 123400000 showing earlier patterns beating the bare
digit run), text without a digit yields none, and any match parsing to a
nonzero value is written back to the record while the cycle delegates to
sales; a match parsing to zero is discarded as if no amount were present. -/
theorem C3_amount_extraction :
    (master_extract_amount ("i need 3 lakh rupees") = some (300000)) ∧
    (master_extract_amount ("need 50k") = some (50000)) ∧
    (master_extract_amount ("requesting 250000") = some (250000)) ∧
    (master_extract_amount ("2500k") = some (2500000)) ∧
    (master_extract_amount ("1234 lakh") = some (123400000)) ∧
    (∀ t : String, (∀ c ∈ t.toList, isDigitCh c = false) →
      master_extract_amount t = none) ∧
    (∀ (s : State) (msg : String) (q : ℚ),
      qTruthy s.requested_amount = false →
      master_extract_amount (strLower msg) = some q → q ≠ 0 →
      determine_next_action Stage.greeting msg s =
        (some ("delegate_to_sales"), Stage.sales_negotiation,
          { s with requested_amount := some q })) := by
  refine ⟨by decide, by decide, by decide, by decide, by decide,
    master_extract_amount_none, ?_⟩
  intro s msg q h1 h2 h3
  unfold determine_next_action
  rw [h1]
  dsimp only
  rw [h2]
  have hq : qTruthy (some q) = true := by simp [qTruthy, h3]
  rw [hq]
  simp

/-- C3, witness: the two hypothesised conjuncts of the amended claim at
concrete inputs. -/
theorem C3_witness :
    master_extract_amount ("hello there") = none ∧
    determine_next_action Stage.greeting ("I need 3 lakh rupees") demo_session =
      (some ("delegate_to_sales"), Stage.sales_negotiation,
        { demo_session with requested_amount := some (300000) }) :=
  ⟨C3_amount_extraction.2.2.2.2.2.1 ("hello there") (by decide),
   C3_amount_extraction.2.2.2.2.2.2 demo_session ("I need 3 lakh rupees") 300000
     rfl (by decide) (by decide)⟩

/-- C4: in the one-time-code flow on the internal fallback provider,
requesting a code sets the sent flag with the attempt counter at zero and
stores the generated code; a wrong code increments the counter and leaves the
cursor (and the stored code) unchanged; the third consecutive wrong code
clears the sent flag and the stored code, resets the counter and replies with
the message telling the user to request a new code; a correct code marks the
phone verified and clears the stored code.  In every scenario the node
completes without raising: the hypotheses pin the address extraction to a
falsy text returned without the `IndexError` of `graph.py:347`, which a plain
code or code-request message satisfies. -/
theorem C4_otp_flow :
    (∀ (o : Oracles) (s : State) (m : String),
      o.twilioConfigured = false →
      verif_uninitialized s = false →
      last_user_trimmed s = some m → m ≠ "" →
      hasAnyKw graph_otp_kws (strLower m) = true →
      optStrTruthy s.customer_id = true →
      ∃ t, verification_agent_node o s = some t ∧
        (t.otp_sent = true ∧
         t.otp_attempts = 0 ∧
         t.otp_provider = some ("demo") ∧
         t.otp_code = some (o.simulateOtp (normalize_phone (otp_phone_source o s))) ∧
         t.current_stage = s.current_stage)) ∧
    (∀ (o : Oracles) (s : State) (m d c : String) (a : Option String),
      s.otp_sent = true → s.otp_provider = some ("demo") →
      s.otp_code = some c → c ≠ "" → s.kyc_verified = true →
      last_user_trimmed s = some m → m ≠ "" →
      hasAnyKw graph_otp_kws (strLower m) = false →
      digit46_search m = some d → d ≠ c →
      addr_text_of m = some a → optStrTruthy a = false →
      pan_search m = none → aad_search m = none → dob_search m = none →
      email_search m = none → alt_phone_search m = none →
      s.otp_attempts + 1 < 3 →
      ∃ t, verification_agent_node o s = some t ∧
        (t.otp_attempts = s.otp_attempts + 1 ∧
         t.otp_sent = true ∧
         t.otp_code = some c ∧
         t.current_stage = s.current_stage)) ∧
    (∀ (o : Oracles) (s : State) (m d c : String) (a : Option String),
      s.otp_sent = true → s.otp_provider = some ("demo") →
      s.otp_code = some c → c ≠ "" → s.kyc_verified = true →
      last_user_trimmed s = some m → m ≠ "" →
      hasAnyKw graph_otp_kws (strLower m) = false →
      digit46_search m = some d → d ≠ c →
      addr_text_of m = some a → optStrTruthy a = false →
      pan_search m = none → aad_search m = none → dob_search m = none →
      email_search m = none → alt_phone_search m = none →
      s.otp_attempts = 2 →
      ∃ t, verification_agent_node o s = some t ∧
        (t.otp_sent = false ∧
         t.otp_attempts = 0 ∧
         t.otp_code = none ∧
         t.conversation_history =
           s.conversation_history ++
             [⟨Role.assistant, demo_max_attempts_msg, o.now, some ("verification")⟩] ∧
         t.current_stage = s.current_stage)) ∧
    (∀ (o : Oracles) (s : State) (m c : String) (a : Option String),
      s.otp_sent = true → s.otp_provider = some ("demo") →
      s.otp_code = some c → c ≠ "" → s.kyc_verified = true →
      last_user_trimmed s = some m → m ≠ "" →
      hasAnyKw graph_otp_kws (strLower m) = false →
      digit46_search m = some c →
      addr_text_of m = some a → optStrTruthy a = false →
      pan_search m = none → aad_search m = none → dob_search m = none →
      email_search m = none → alt_phone_search m = none →
      ∃ t, verification_agent_node o s = some t ∧
        (t.phone_verified = true ∧
         t.otp_sent = false ∧
         t.otp_code = none ∧
         t.otp_attempts = 0 ∧
         t.current_stage = s.current_stage)) := by
  refine ⟨?_, ?_, ?_, ?_⟩
  · intro o s m htw hinit hm hne hkw hcid
    exact otp_request_scenario o s m htw hinit hm hne hkw hcid
  · intro o s m d c a hsent hprov hcd hcne hkv hm hne hkw hd hdc ha hfal k1 k2 k3 k4 k5 hlt
    exact otp_wrong_scenario o s m d c a hsent hprov hcd hcne hkv hm hne hkw hd hdc ha hfal
      k1 k2 k3 k4 k5 hlt
  · intro o s m d c a hsent hprov hcd hcne hkv hm hne hkw hd hdc ha hfal k1 k2 k3 k4 k5 hatt
    exact otp_third_wrong_scenario o s m d c a hsent hprov hcd hcne hkv hm hne hkw hd hdc
      ha hfal k1 k2 k3 k4 k5 hatt
  · intro o s m c a hsent hprov hcd hcne hkv hm hne hkw hd ha hfal k1 k2 k3 k4 k5
    exact otp_correct_scenario o s m c a hsent hprov hcd hcne hkv hm hne hkw hd ha hfal
      k1 k2 k3 k4 k5

/-- C4, witness: all four code-flow scenarios at concrete records driven by
the demo collaborators. -/
theorem C4_witness :
    (∃ t, verification_agent_node demo_oracles demo_send_state = some t ∧
      (t.otp_sent = true ∧
       t.otp_attempts = 0 ∧
       t.otp_provider = some ("demo") ∧
       t.otp_code = some (demo_oracles.simulateOtp
         (normalize_phone (otp_phone_source demo_oracles demo_send_state))) ∧
       t.current_stage = demo_send_state.current_stage)) ∧
    (∃ t, verification_agent_node demo_oracles demo_code_state = some t ∧
      (t.otp_attempts = demo_code_state.otp_attempts + 1 ∧
       t.otp_sent = true ∧
       t.otp_code = some ("482913") ∧
       t.current_stage = demo_code_state.current_stage)) ∧
    (∃ t, verification_agent_node demo_oracles demo_code_state3 = some t ∧
      (t.otp_sent = false ∧
       t.otp_attempts = 0 ∧
       t.otp_code = none ∧
       t.conversation_history =
         demo_code_state3.conversation_history ++
           [⟨Role.assistant, demo_max_attempts_msg, demo_oracles.now, some ("verification")⟩] ∧
       t.current_stage = demo_code_state3.current_stage)) ∧
    (∃ t, verification_agent_node demo_oracles demo_code_right = some t ∧
      (t.phone_verified = true ∧
       t.otp_sent = false ∧
       t.otp_code = none ∧
       t.otp_attempts = 0 ∧
       t.current_stage = demo_code_right.current_stage)) :=
  ⟨C4_otp_flow.1 demo_oracles demo_send_state ("SEND OTP") rfl rfl rfl (by decide) rfl rfl,
   C4_otp_flow.2.1 demo_oracles demo_code_state ("111111") ("111111") ("482913") none
     rfl rfl rfl (by decide) rfl rfl (by decide) rfl rfl (by decide) rfl rfl
     rfl rfl rfl rfl rfl (by decide),
   C4_otp_flow.2.2.1 demo_oracles demo_code_state3 ("111111") ("111111") ("482913") none
     rfl rfl rfl (by decide) rfl rfl (by decide) rfl rfl (by decide) rfl rfl
     rfl rfl rfl rfl rfl rfl,
   C4_otp_flow.2.2.2 demo_oracles demo_code_right ("482913") ("482913") none
     rfl rfl rfl (by decide) rfl rfl (by decide) rfl rfl rfl rfl
     rfl rfl rfl rfl rfl⟩

/-- C5, counterexample: the claim says every single stage execution appends
at most one conversational message.  One verification-stage execution on a
message carrying both an address and an email appends two messages (the
address check result and the capture notice). -/
theorem C5_counterexample :
    (verification_agent_node demo_oracles demo_addr_state).map
        (fun t => t.conversation_history.length) =
      some (demo_addr_state.conversation_history.length + 2) := rfl

/-- C5, amended: every single stage execution that returns a record appends
at most `node_bound` messages — one for every stage except verification,
whose independent sub-checks may append up to four — with
`total_interactions` advancing in lockstep, and across a whole completed
cycle the conversation log only ever grows by appending, so it never shrinks
or reorders. -/
theorem C5_append_bounds :
    (∀ (o : Oracles) (n : NodeName) (s t : State),
      run_node o n s = some t → MsgAppendsAtMost (node_bound n) s t) ∧
    (∀ (o : Oracles) (f : Nat) (n : NodeName) (s t : State),
      step_from o f n s = some t → MsgAppends s t) :=
  ⟨run_node_appends, fun o f n s t h => step_from_appends o f n s t h⟩

/-- C5, witness: the per-stage bound and the whole-cycle growth at a concrete
first cycle on a fresh session. -/
theorem C5_witness :
    MsgAppendsAtMost (node_bound NodeName.master) demo_session
      (master_agent_node demo_oracles demo_session) ∧
    MsgAppends demo_session
      (add_message demo_oracles.now demo_session Role.assistant
        (generate_greeting demo_session.customer_name) (some ("master"))) :=
  ⟨C5_append_bounds.1 demo_oracles NodeName.master demo_session
     (master_agent_node demo_oracles demo_session) rfl,
   C5_append_bounds.2 demo_oracles workflow_recursion_limit NodeName.master demo_session
     (add_message demo_oracles.now demo_session Role.assistant
       (generate_greeting demo_session.customer_name) (some ("master"))) rfl⟩

/-- C6: a record state never holds a code issued by the external provider —
the code field implies the fallback provider, the property holds initially,
is preserved by every stage execution, and therefore holds in every reachable
record state; with the external provider on record the code field is empty. -/
theorem C6_twilio_code_never_stored :
    (∀ (sid now : String) (cid : Option String),
      OtpCodeOnlyFallback (create_initial_state sid now cid)) ∧
    (∀ (o : Oracles) (n : NodeName) (s t : State),
      run_node o n s = some t →
      OtpCodeOnlyFallback s → OtpCodeOnlyFallback t) ∧
    (∀ s : State, SessionReachable s → OtpCodeOnlyFallback s) ∧
    (∀ s : State, OtpCodeOnlyFallback s → s.otp_provider = some ("twilio") →
      s.otp_code = none) := by
  refine ⟨?_, ?_, ?_, ?_⟩
  · intro sid now cid c hc
    exact nomatch hc
  · exact run_node_otpinv
  · exact session_otpinv
  · intro s h hp
    cases hc : s.otp_code with
    | none => rfl
    | some c =>
        have hd := h c hc
        rw [hp] at hd
        simp at hd

/-- C6, witness: the preservation conjunct applied to a verification-stage
execution on a freshly created session. -/
theorem C6_witness :
    OtpCodeOnlyFallback (verif_start demo_oracles demo_session) :=
  C6_twilio_code_never_stored.2.1 demo_oracles NodeName.verification demo_session
    (verif_start demo_oracles demo_session) rfl
    (C6_twilio_code_never_stored.1 ("s1") ("t0") (some ("CUST001")))

/-- C7: with the cursor on underwriting the orchestrator branches on the
decision field — documents needed moves the cursor to document upload,
approval delegates to sanction, rejection moves to closure, anything else
stays — and once the upload flag is set the document-upload stage delegates
back to underwriting, not forward to sanction. -/
theorem C7_underwriting_branching :
    ∀ (msg : String) (s : State),
      (s.underwriting_decision = some UDecision.needs_documents →
        determine_next_action Stage.underwriting msg s = (none, Stage.document_upload, s)) ∧
      (s.underwriting_decision = some UDecision.approved →
        determine_next_action Stage.underwriting msg s =
          (some ("delegate_to_sanction"), Stage.sanction_generation, s)) ∧
      (s.underwriting_decision = some UDecision.rejected →
        determine_next_action Stage.underwriting msg s = (none, Stage.closure, s)) ∧
      ((s.underwriting_decision = some UDecision.pending ∨ s.underwriting_decision = none) →
        determine_next_action Stage.underwriting msg s = (none, Stage.underwriting, s)) ∧
      (s.salary_slip_uploaded = true →
        determine_next_action Stage.document_upload msg s =
          (some ("delegate_to_underwriting"), Stage.underwriting, s)) := by
  intro msg s
  refine ⟨?_, ?_, ?_, ?_, ?_⟩
  · intro h; unfold determine_next_action; rw [h]
  · intro h; unfold determine_next_action; rw [h]
  · intro h; unfold determine_next_action; rw [h]
  · intro h
    unfold determine_next_action
    rcases h with h | h <;> rw [h]
  · intro h
    unfold determine_next_action
    simp [h]

/-- C7, witness: all five branches at concrete records. -/
theorem C7_witness :
    determine_next_action Stage.underwriting ("status?")
        (demo_uw_state UDecision.needs_documents) =
      (none, Stage.document_upload, demo_uw_state UDecision.needs_documents) ∧
    determine_next_action Stage.underwriting ("status?")
        (demo_uw_state UDecision.approved) =
      (some ("delegate_to_sanction"), Stage.sanction_generation,
        demo_uw_state UDecision.approved) ∧
    determine_next_action Stage.underwriting ("status?")
        (demo_uw_state UDecision.rejected) =
      (none, Stage.closure, demo_uw_state UDecision.rejected) ∧
    determine_next_action Stage.underwriting ("status?")
        (demo_uw_state UDecision.pending) =
      (none, Stage.underwriting, demo_uw_state UDecision.pending) ∧
    determine_next_action Stage.document_upload ("uploaded") demo_doc_state =
      (some ("delegate_to_underwriting"), Stage.underwriting, demo_doc_state) :=
  ⟨(C7_underwriting_branching ("status?") (demo_uw_state UDecision.needs_documents)).1 rfl,
   (C7_underwriting_branching ("status?") (demo_uw_state UDecision.approved)).2.1 rfl,
   (C7_underwriting_branching ("status?") (demo_uw_state UDecision.rejected)).2.2.1 rfl,
   (C7_underwriting_branching ("status?") (demo_uw_state UDecision.pending)).2.2.2.1 (Or.inl rfl),
   (C7_underwriting_branching ("uploaded") demo_doc_state).2.2.2.2 rfl⟩

theorem route_verification_iff (s : State)
    (hstage : s.current_stage = Stage.verification)
    (hact : is_delegate_action s.next_action = false) :
    route_master_agent s = Route.verification ↔
      (∃ m, s.conversation_history.getLast? = some m ∧ m.role = Role.user ∧
        (hasAnyKw graph_otp_kws (strLower m.content) = true ∨
         (s.otp_sent = true ∧ (reSearchB digit46Pat (strLower m.content)).isSome = true))) := by
  simp only [is_delegate_action, Bool.or_eq_false_iff, beq_eq_false_iff_ne, ne_eq] at hact
  obtain ⟨⟨⟨n1, n2⟩, n3⟩, n4⟩ := hact
  have e1 : (s.next_action == some ("delegate_to_sales")) = false := by simp [n1]
  have e2 : (s.next_action == some ("delegate_to_verification")) = false := by simp [n2]
  have e3 : (s.next_action == some ("delegate_to_underwriting")) = false := by simp [n3]
  have e4 : (s.next_action == some ("delegate_to_sanction")) = false := by simp [n4]
  unfold route_master_agent
  rw [e1, e2, e3, e4, hstage]
  rcases hL : s.conversation_history.getLast? with _ | m
  · simp
  · simp only [Option.some.injEq, Bool.false_eq_true, if_false, beq_self_eq_true,
      Bool.true_and]
    cases hrr : m.role
    case user =>
      cases hk : hasAnyKw graph_otp_kws (strLower m.content) <;>
        cases hs : s.otp_sent <;>
        cases hr : (reSearchB digit46Pat (strLower m.content)).isSome <;>
        simp [hk, hs, hr, hrr]
    case assistant => simp [hrr]
    case system => simp [hrr]

/-- C8: while the cursor is verification and no delegation pending action is
set, the router picks the verification stage exactly when the most recent
conversation entry is a user message matching a code-request phrasing or,
with a code already sent, containing a 4-6 digit token; the characterisation
depends on nothing but that latest entry and the sent flag. -/
theorem C8_verification_reroute_iff :
    ∀ s : State, s.current_stage = Stage.verification →
      is_delegate_action s.next_action = false →
      (route_master_agent s = Route.verification ↔
        (∃ m, s.conversation_history.getLast? = some m ∧ m.role = Role.user ∧
          (hasAnyKw graph_otp_kws (strLower m.content) = true ∨
           (s.otp_sent = true ∧
            (reSearchB digit46Pat (strLower m.content)).isSome = true)))) :=
  fun s h1 h2 => route_verification_iff s h1 h2

/-- C8, witness: the re-route fires on a concrete record whose latest entry
is the user message `otp please`. -/
theorem C8_witness :
    route_master_agent demo_reroute_state = Route.verification :=
  (C8_verification_reroute_iff demo_reroute_state rfl rfl).mpr
    ⟨⟨Role.user, "otp please", "t0", none⟩, rfl, rfl, Or.inl (by decide)⟩

/-- C9: on the very first cycle of a session, with the conversation log
empty, the orchestrator node is exactly one greeting append — the cursor and
the pending action are untouched and no user text is processed. -/
theorem C9_first_cycle_greeting_only :
    ∀ (o : Oracles) (s : State), s.conversation_history = [] →
      master_agent_node o s =
        add_message o.now s Role.assistant (generate_greeting s.customer_name)
          (some ("master")) ∧
      (master_agent_node o s).current_stage = s.current_stage ∧
      (master_agent_node o s).next_action = s.next_action ∧
      (master_agent_node o s).conversation_history =
        [⟨Role.assistant, generate_greeting s.customer_name, o.now, some ("master")⟩] := by
  intro o s h
  have hL : s.conversation_history.getLast? = none := by rw [h]; rfl
  unfold master_agent_node
  rw [hL]
  refine ⟨rfl, rfl, rfl, ?_⟩
  simp [add_message, update_state, h]

/-- C9, witness: the first cycle of a freshly created session. -/
theorem C9_witness :
    master_agent_node demo_oracles demo_session =
      add_message demo_oracles.now demo_session Role.assistant
        (generate_greeting demo_session.customer_name) (some ("master")) :=
  (C9_first_cycle_greeting_only demo_oracles demo_session rfl).1

/-- C10, counterexample: the claim says a `process_message` call on an
existing session never errors.  On a session holding no customer id whose
cursor reached the sales negotiation, the inbound text `proceed` makes the
orchestrator delegate to verification; the verification startup error path
(`graph.py:203-206`) returns without clearing the pending delegation, the
orchestrator then no-ops (its latest entry is its own reply) and the router
re-delegates, so the cycle loops until the recursion limit and the call
raises `GraphRecursionError` instead of returning. -/
theorem C10_counterexample :
    lookup_session demo_loop_workflow.sessions ("s2") = some demo_loop_session ∧
    workflow_process_message demo_oracles demo_loop_workflow ("s2") ("proceed") = none :=
  ⟨rfl, rfl⟩

/-- C10, amended: whenever a `process_message` call on an existing session
returns instead of raising, it returns success with, as response text, the
content of the last assistant message of the entire stored conversation
history — in particular the empty string when no assistant message exists at
all; but a call can raise out of the graph run (see the counterexample), and
then nothing is returned or stored. -/
theorem C10_response_is_last_assistant :
    (∀ (o : Oracles) (w : Workflow) (sid msg : String) (st : State)
        (r : PMResult) (w2 : Workflow),
      lookup_session w.sessions sid = some st →
      workflow_process_message o w sid msg = some (r, w2) →
      ∃ st2, workflow_invoke o (add_message o.now st Role.user msg none) = some st2 ∧
        r = PMResult.ok (last_assistant_content st2.conversation_history) st2
              st2.current_stage st2.application_status) ∧
    (∀ hist : List Message,
      hist.filter (fun m => m.role == Role.assistant) = [] →
      last_assistant_content hist = "") := by
  constructor
  · intro o w sid msg st r w2 h hr
    unfold workflow_process_message at hr
    rw [h] at hr
    dsimp only at hr
    cases hinv : workflow_invoke o (add_message o.now st Role.user msg none) with
    | none => rw [hinv] at hr; exact Option.noConfusion hr
    | some st2 =>
        rw [hinv] at hr
        dsimp only at hr
        have hp := Option.some.inj hr
        injection hp with h1 h2
        exact ⟨st2, rfl, h1.symm⟩
  · intro hist hh
    unfold last_assistant_content
    rw [hh]
    rfl

/-- C10, witness: the conditional response property at a concrete completed
call. -/
theorem C10_witness :
    ∃ st2, workflow_invoke demo_oracles
        (add_message demo_oracles.now demo_session Role.user ("hello") none) = some st2 ∧
      demo_hello_result.1 = PMResult.ok (last_assistant_content st2.conversation_history) st2
        st2.current_stage st2.application_status :=
  C10_response_is_last_assistant.1 demo_oracles demo_workflow ("s1") ("hello")
    demo_session demo_hello_result.1 demo_hello_result.2 rfl rfl

end FinAgent



